import Mathlib

/-!
Verification of the meteor-madness impact-effect estimation pipeline.

This file gives a shallow embedding, over the real numbers, of the pure
computational core of the repository: the energy/geometry model of
src/state/useSimStore.ts, the lethality model of src/ui/riskmodel.ts, the
casualty and population-density model of src/lib/casualty.ts, the tsunami
model of src/lib/tsunami.ts and the quiz builders of src/lib/dynamics.ts.
JavaScript numbers are modelled as real numbers (exact arithmetic); for the
safety claim about NaN/Infinity propagation a dedicated JSNum type with
IEEE-style special values is used.  Network fetches are modelled by passing
the fetched value (or its absence) as an explicit argument.
-/

open scoped Classical

noncomputable section

namespace MeteorMadness

/-- Math.max(lo, Math.min(hi, v)), the clamp helper shared by casualty.ts,
tsunami.ts and dynamics.ts. -/
def clamp (v lo hi : ℝ) : ℝ := max lo (min hi v)

/-- JS Math.round(x), and also the rounding performed by Number.toFixed:
round to the nearest integer, ties toward positive infinity. -/
def jsRound (x : ℝ) : ℤ := ⌊x + 1/2⌋

/-- Number(x.toFixed(2)) on a JS number: x rounded to two decimals. -/
def toFixed2Num (x : ℝ) : ℝ := (jsRound (x * 100) : ℝ) / 100

/-- JS Math.cbrt: the real cube root (odd extension of the rpow cube root). -/
def jsCbrt (x : ℝ) : ℝ := if x < 0 then -((-x) ^ ((1:ℝ)/3)) else x ^ ((1:ℝ)/3)

/-! ## Decimal rendering of numbers

JS template strings interpolate numbers in standard decimal notation, and
the quiz builders rely on it; the following models that rendering and
proves it injective, which is what makes distinct numeric options render
as distinct strings. -/

/-- The character for a decimal digit value. -/
def digitChar (d : ℕ) : Char := Char.ofNat (48 + d)

/-- Decimal rendering of a natural number (JS number-to-string for a
non-negative integer value). -/
def renderNat (n : ℕ) : String :=
  if n = 0 then "0" else ⟨((Nat.digits 10 n).map digitChar).reverse⟩

/-- Decimal rendering of an integer value (JS number-to-string). -/
def renderInt (k : ℤ) : String :=
  if k < 0 then "-" ++ renderNat k.natAbs else renderNat k.natAbs

/-! ## Energy and geometry model (src/state/useSimStore.ts) -/

/-- estimateEnergyMtTNT from src/state/useSimStore.ts, lines 18-25:
sphere volume from the diameter, mass from density, kinetic energy in
joules, converted to megatons TNT. -/
def estimateEnergyMtTNT (size_m density speed_kms : ℝ) : ℝ :=
  let r := size_m / 2
  let vol := (4 / 3) * Real.pi * r * r * r
  let mass := density * vol
  let v := speed_kms * 1000
  let joules := 0.5 * mass * v * v
  joules / 4.184e15

/-- The outputs written by recalcHazards in src/state/useSimStore.ts. -/
structure HazardRadii where
  blastKm : ℝ
  seismicKm : ℝ
  tsunamiKm : ℝ
  craterKm : ℝ
  energyTNT : ℝ

/-- recalcHazards from src/state/useSimStore.ts, lines 134-154: the derived
hazard radii and crater diameter (the store write and the readouts that do
not depend on the energy are omitted). -/
def recalcHazards (size speed density : ℝ) : HazardRadii :=
  let E := estimateEnergyMtTNT size density speed
  { blastKm := 80 + E * 5
    seismicKm := 40 + E * 2
    tsunamiKm := 120 + E * 6
    craterKm := jsCbrt E * 1.2
    energyTNT := E }

/-- The closed-form energy formula exactly as the specification states it. -/
def specEnergyMtTNT (size_m density speed_kms : ℝ) : ℝ :=
  (0.5 * (density * ((4:ℝ)/3) * Real.pi * (size_m/2)^3) * (speed_kms*1000)^2) / 4.184e15

/-! ## Tsunami model (src/lib/tsunami.ts) -/

/-- The risk labels of TsunamiAssessment.risk; unable stands for the
string literal Unable to determine. -/
inductive TsunamiRisk where
  | EXTREME
  | HIGH
  | MODERATE
  | LOW
  | NEGLIGIBLE
  | unable
  deriving DecidableEq

/-- The terrain labels shared by tsunami.ts and casualty.ts. -/
inductive TerrainKind where
  | oceanSea
  | coastalLowLying
  | plainsValley
  | hillsPlateau
  | mountains
  | unknown
  deriving DecidableEq

/-- The TsunamiAssessment record of src/lib/tsunami.ts. -/
structure TsunamiAssessment where
  elevation : Option ℝ
  terrain : TerrainKind
  risk : TsunamiRisk
  waveDeepM : Option ℝ
  waveCoastM : Option ℝ
  notes : List String

/-- The terrain classification of tsunami.ts lines 242-248: thresholds on
the looked-up elevation, null mapping to Unknown. -/
def classifyTerrain (elevation : Option ℝ) : TerrainKind :=
  match elevation with
  | none => .unknown
  | some e =>
    if e < 0 then .oceanSea
    else if e < 10 then .coastalLowLying
    else if e < 100 then .plainsValley
    else if e < 500 then .hillsPlateau
    else .mountains

/-- The risk label computed from the coastal wave height at tsunami.ts
lines 302-308. -/
def riskFromCoast (waveCoastM : Option ℝ) : TsunamiRisk :=
  match waveCoastM with
  | none => .unable
  | some w =>
    if w > 50 then .EXTREME
    else if w > 15 then .HIGH
    else if w > 5 then .MODERATE
    else if w > 1 then .LOW
    else .NEGLIGIBLE

/-- assessTsunami from src/lib/tsunami.ts lines 226-311, as a function of
the elevation produced by the external lookup (the fetch wrapper turns any
failure into null, modelled here as the none argument). -/
def assessTsunamiWith (elevation : Option ℝ) (energyTNT craterKm : ℝ) : TsunamiAssessment :=
  let terrain := classifyTerrain elevation
  match elevation with
  | none =>
    { elevation := none
      terrain := terrain
      risk := .unable
      waveDeepM := none
      waveCoastM := none
      notes := ["Elevation service unavailable"] }
  | some e =>
    let cbrtE := jsCbrt (max energyTNT 0)
    if terrain = .oceanSea then
      let depth := |e|
      let depthCap := clamp depth 200 6000
      let waveDeep := 0.6 * cbrtE * Real.sqrt (depthCap / 4000)
      let hDeep : ℝ := 4000
      let hCoast : ℝ := 50
      let shoal := (hDeep / hCoast) ^ ((0.25 : ℝ))
      let waveCoast := clamp (waveDeep * shoal) 1 120
      { elevation := some e
        terrain := terrain
        risk := riskFromCoast (some waveCoast)
        waveDeepM := some waveDeep
        waveCoastM := some waveCoast
        notes := ["Ocean impact (depth ≈ " ++ renderInt (jsRound depth) ++ " m)"] }
    else if terrain = .coastalLowLying then
      let waveCoast := clamp (0.35 * cbrtE + 0.1 * craterKm) 0.5 30
      { elevation := some e
        terrain := terrain
        risk := riskFromCoast (some waveCoast)
        waveDeepM := some 0
        waveCoastM := some waveCoast
        notes := ["Coastal land impact: surge & local inundation likely"] }
    else
      { elevation := some e
        terrain := terrain
        risk := riskFromCoast (some 0)
        waveDeepM := some 0
        waveCoastM := some 0
        notes := [] }

/-- Rendering of a tenth-valued number with one decimal, as produced by
toFixed(1); the argument is the value in tenths.  (JS would render a
negative zero as -0.0; the real-number model has no negative zero.) -/
def renderTenths (k : ℤ) : String :=
  (if k < 0 then "-" else "") ++ renderNat (k.natAbs / 10) ++ "." ++ renderNat (k.natAbs % 10)

/-- A natural number rendered with at least two digits, for the fractional
part of toFixed(2). -/
def renderNatPad2 (n : ℕ) : String :=
  if n < 10 then "0" ++ renderNat n else renderNat n

/-- Rendering of a hundredth-valued number with two decimals, as produced
by toFixed(2); the argument is the value in hundredths. -/
def renderHundredths (k : ℤ) : String :=
  (if k < 0 then "-" else "") ++ renderNat (k.natAbs / 100) ++ "." ++ renderNatPad2 (k.natAbs % 100)

/-- JS x.toFixed(0) as a string. -/
def toFixed0Str (x : ℝ) : String := renderInt (jsRound x)

/-- JS x.toFixed(1) as a string. -/
def toFixed1Str (x : ℝ) : String := renderTenths (jsRound (10 * x))

/-- JS x.toFixed(2) as a string. -/
def toFixed2Str (x : ℝ) : String := renderHundredths (jsRound (100 * x))

/-! ## Lethality model (src/ui/riskmodel.ts) -/

/-- haversineKm from src/ui/riskmodel.ts lines 11-21: great-circle distance
with Earth radius 6371 km. -/
def haversineKm (lat1 lon1 lat2 lon2 : ℝ) : ℝ :=
  let R : ℝ := 6371
  let toRad := fun (d : ℝ) => d * Real.pi / 180
  let dLat := toRad (lat2 - lat1)
  let dLon := toRad (lon2 - lon1)
  let a := Real.sin (dLat / 2) ^ 2 +
    Real.cos (toRad lat1) * Real.cos (toRad lat2) * Real.sin (dLon / 2) ^ 2
  let c := 2 * Real.arcsin (min 1 (Real.sqrt a))
  R * c

/-- The HazardInputs record of src/ui/riskmodel.ts. -/
structure HazardInputs where
  impactLat : ℝ
  impactLon : ℝ
  blastKm : ℝ
  seismicKm : ℝ
  tsunamiKm : ℝ
  approachAngleDeg : Option ℝ
  targetElevationM : Option ℝ
  targetIsCoastal : Option Bool

/-- The dominantHazard union type of HazardBreakdown. -/
inductive DominantHazard where
  | blast
  | seismic
  | tsunami
  | none
  deriving DecidableEq

/-- The interpolated rendering of a dominant hazard label. -/
def renderDominant : DominantHazard → String
  | .blast => "blast"
  | .seismic => "seismic"
  | .tsunami => "tsunami"
  | .none => "none"

/-- The HazardBreakdown record of src/ui/riskmodel.ts. -/
structure HazardBreakdown where
  distanceKm : ℝ
  blastRisk : ℝ
  seismicRisk : ℝ
  tsunamiRisk : ℝ
  dominantHazard : DominantHazard
  killProbability : ℝ
  isLethal : Bool
  rationale : String

/-- sigmoidFalloff from src/ui/riskmodel.ts lines 46-52. -/
def sigmoidFalloff (distanceKm innerKm outerKm : ℝ) : ℝ :=
  if outerKm ≤ innerKm then (if distanceKm ≤ innerKm then 1 else 0)
  else if distanceKm ≤ innerKm then 1
  else
    let t := min 1 (max 0 ((distanceKm - innerKm) / (outerKm - innerKm)))
    let s := 1 - (3 * t * t - 2 * t * t * t)
    max 0 (min 1 s)

/-- seismicAngleModifier from src/ui/riskmodel.ts lines 54-59. -/
def seismicAngleModifier (angleDeg : Option ℝ) : ℝ :=
  match angleDeg with
  | Option.none => 1
  | some a => if a < 20 then 0.85 else if a < 35 then 0.93 else 1

/-- tsunamiCoastalModifier from src/ui/riskmodel.ts lines 61-63 (an absent
flag is falsy in JS). -/
def tsunamiCoastalModifier (isCoastal : Option Bool) : ℝ :=
  match isCoastal with
  | some true => 1
  | _ => 0.15

/-- tsunamiElevationModifier from src/ui/riskmodel.ts lines 65-70. -/
def tsunamiElevationModifier (elevationM : Option ℝ) : ℝ :=
  match elevationM with
  | Option.none => 1
  | some e => if e ≥ 50 then 0.25 else if e ≥ 20 then 0.5 else 1

/-- The clamp01 helper local to assessLethality. -/
def clamp01 (n : ℝ) : ℝ := min 1 (max 0 n)

/-- assessLethality from src/ui/riskmodel.ts lines 72-124. -/
def assessLethality (inputs : HazardInputs) (targetLat targetLon : ℝ) : HazardBreakdown :=
  let distanceKm := haversineKm inputs.impactLat inputs.impactLon targetLat targetLon
  let blastInner := max 1 (0.45 * inputs.blastKm)
  let blastOuter := inputs.blastKm
  let seismicInner := max 1 (0.45 * inputs.seismicKm)
  let seismicOuter := inputs.seismicKm
  let tsunamiInner := max 1 (0.45 * inputs.tsunamiKm)
  let tsunamiOuter := inputs.tsunamiKm
  let blastRisk0 := sigmoidFalloff distanceKm blastInner blastOuter
  let seismicRisk0 := sigmoidFalloff distanceKm seismicInner seismicOuter
  let tsunamiRisk0 := sigmoidFalloff distanceKm tsunamiInner tsunamiOuter
  let seismicRisk1 := seismicRisk0 * seismicAngleModifier inputs.approachAngleDeg
  let tsunamiRisk1 := tsunamiRisk0 * tsunamiCoastalModifier inputs.targetIsCoastal
    * tsunamiElevationModifier inputs.targetElevationM
  let blastRisk := clamp01 blastRisk0
  let seismicRisk := clamp01 seismicRisk1
  let tsunamiRisk := clamp01 tsunamiRisk1
  let surviveAll := (1 - blastRisk) * (1 - seismicRisk) * (1 - tsunamiRisk)
  let killProbability := clamp01 (1 - surviveAll)
  let maxRisk := max blastRisk (max seismicRisk tsunamiRisk)
  let dominantHazard : DominantHazard :=
    if maxRisk > 0 then
      (if maxRisk = blastRisk then .blast
       else if maxRisk = seismicRisk then .seismic
       else .tsunami)
    else .none
  let isLethal : Bool := decide (killProbability ≥ 0.5)
  let rationale :=
    if isLethal then
      "High fatality risk due to " ++ renderDominant dominantHazard ++ " at "
        ++ toFixed1Str distanceKm ++ " km from impact."
    else
      "Sub-lethal at " ++ toFixed1Str distanceKm ++ " km; estimated kill probability "
        ++ toFixed0Str (killProbability * 100) ++ "%."
  { distanceKm := toFixed2Num distanceKm
    blastRisk := toFixed2Num blastRisk
    seismicRisk := toFixed2Num seismicRisk
    tsunamiRisk := toFixed2Num tsunamiRisk
    dominantHazard := dominantHazard
    killProbability := toFixed2Num killProbability
    isLethal := isLethal
    rationale := rationale }

/-! ## Population density model (src/lib/casualty.ts) -/

/-- The source field of a DensityAssessment. -/
inductive DensitySource where
  | overpass
  | terrainFallback
  deriving DecidableEq

/-- The DensityAssessment record of src/lib/casualty.ts; the category is
kept as the string the code stores. -/
structure DensityAssessment where
  densityPkm2 : ℝ
  category : String
  source : DensitySource
  note : Option String

/-- The PLACE_DENSITY table of casualty.ts lines 28-35; the JS test
place in PLACE_DENSITY corresponds to isSome, and indexing with the
JS fallback to 0 corresponds to getD 0. -/
def placeDensity (place : String) : Option ℝ :=
  if place = "city" then some 5000
  else if place = "suburb" then some 2500
  else if place = "neighbourhood" then some 3000
  else if place = "town" then some 1500
  else if place = "village" then some 400
  else if place = "hamlet" then some 80
  else none

/-- The TERRAIN_DENSITY table of casualty.ts lines 37-44. -/
def terrainDensity : TerrainKind → ℝ
  | .oceanSea => 0
  | .coastalLowLying => 800
  | .plainsValley => 150
  | .hillsPlateau => 90
  | .mountains => 40
  | .unknown => 150

/-- One iteration of the loop of casualty.ts lines 70-82: keep the densest
place class seen so far, replacing only on a strictly greater density. -/
def bestPlaceStep (best : Option String) (place? : Option String) : Option String :=
  match place? with
  | none => best
  | some place =>
    if (placeDensity place).isSome then
      match best with
      | none => some place
      | some b =>
        if (placeDensity b).getD 0 < (placeDensity place).getD 0 then some place
        else best
    else best

/-- The bestCat computed by the loop of casualty.ts lines 69-82 over the
fetched elements, each carrying an optional place tag. -/
def bestPlaceCat (els : List (Option String)) : Option String :=
  els.foldl bestPlaceStep none

/-- The terrain fallback result of casualty.ts lines 87-89 and 91-92. -/
def terrainFallbackAssessment (terrain : TerrainKind) (note : String) : DensityAssessment :=
  { densityPkm2 := terrainDensity terrain
    category := if terrain = .coastalLowLying then "coast" else "rural"
    source := .terrainFallback
    note := some note }

/-- assessPopulationDensity from casualty.ts lines 50-94 on the success
path, as a function of the optional place tags of the fetched elements. -/
def assessPopulationDensityWith (els : List (Option String)) (terrain : TerrainKind) :
    DensityAssessment :=
  match bestPlaceCat els with
  | some c =>
    { densityPkm2 := (placeDensity c).getD 0
      category := c
      source := .overpass
      note := none }
  | none => terrainFallbackAssessment terrain "No OSM place nearby"

/-- The catch branch of assessPopulationDensity (casualty.ts lines 90-93):
any fetch failure produces the terrain fallback. -/
def assessPopulationDensityFail (terrain : TerrainKind) : DensityAssessment :=
  terrainFallbackAssessment terrain "Overpass unavailable"

/-! ## Casualty estimator (src/lib/casualty.ts) -/

/-- The CasualtyEstimate record of casualty.ts. -/
structure CasualtyEstimate where
  density : DensityAssessment
  areaKm2 : ℝ
  fatalityRate : ℝ
  casualties : ℝ

/-- roundSig from casualty.ts lines 20-26; over the reals the non-finite
guard of the source is vacuous, leaving the non-positivity guard. -/
def roundSig (n : ℝ) : ℝ :=
  if n ≤ 0 then 0
  else
    let e := ⌊Real.logb 10 n⌋
    let m := n / (10:ℝ) ^ (e:ℤ)
    let sig : ℝ := if m < 1.5 then 1 else if m < 3.5 then 2 else if m < 7.5 then 5 else 10
    sig * (10:ℝ) ^ (e:ℤ)

/-- The significand table of roundSig stated the way the specification
words it: the nice number 1, 2, 5 or 10 selected by the mantissa with
thresholds 1.5, 3.5 and 7.5. -/
def niceSig (m : ℝ) : ℝ :=
  if m < 1.5 then 1 else if m < 3.5 then 2 else if m < 7.5 then 5 else 10

/-- estimateCasualties from casualty.ts lines 102-132. -/
def estimateCasualties (energyTNT craterKm blastRadiusKm densityPkm2 : ℝ)
    (tsunamiRisk : TsunamiRisk) : CasualtyEstimate :=
  let craterR := max 0 (craterKm / 2)
  let Re := max 0.1 (craterR + 0.6 * max 0 blastRadiusKm)
  let areaKm2 := Real.pi * Re * Re
  let baseF := clamp (0.08 + 0.12 * Real.logb 10 (max 1e-6 energyTNT)) 0.03 0.75
  let adj : ℝ :=
    match tsunamiRisk with
    | .EXTREME => 0.20
    | .HIGH => 0.12
    | .MODERATE => 0.06
    | .LOW => 0.02
    | _ => 0
  let fatalityRate := clamp (baseF + adj) 0.03 0.9
  let casualtiesRaw := densityPkm2 * areaKm2 * fatalityRate
  let casualties := roundSig casualtiesRaw
  { density := ⟨densityPkm2, "unknown", .overpass, Option.none⟩
    areaKm2 := areaKm2
    fatalityRate := fatalityRate
    casualties := casualties }

/-! ## JS number model with IEEE special values

For the safety claim about estimateCasualties on NaN or infinite inputs,
JS numbers are modelled as an inductive type carrying NaN, the two
infinities, and exact finite reals.  The operations follow the IEEE-754
special-value propagation rules of JS arithmetic; finite arithmetic is
exact (the rounding, overflow and negative zero of the 64-bit format are
not modelled). -/

inductive JSNum where
  | nan
  | inf
  | ninf
  | fin (x : ℝ)

namespace JSNum

/-- Number.isFinite. -/
def isFinite : JSNum → Bool
  | fin _ => true
  | _ => false

/-- JS addition. -/
def add : JSNum → JSNum → JSNum
  | nan, _ => nan
  | _, nan => nan
  | inf, ninf => nan
  | ninf, inf => nan
  | inf, _ => inf
  | _, inf => inf
  | ninf, _ => ninf
  | _, ninf => ninf
  | fin x, fin y => fin (x + y)

/-- JS multiplication. -/
def mul : JSNum → JSNum → JSNum
  | nan, _ => nan
  | _, nan => nan
  | inf, inf => inf
  | inf, ninf => ninf
  | ninf, inf => ninf
  | ninf, ninf => inf
  | inf, fin y => if 0 < y then inf else if y < 0 then ninf else nan
  | fin x, inf => if 0 < x then inf else if x < 0 then ninf else nan
  | ninf, fin y => if 0 < y then ninf else if y < 0 then inf else nan
  | fin x, ninf => if 0 < x then ninf else if x < 0 then inf else nan
  | fin x, fin y => fin (x * y)

/-- JS division (without negative zero, a zero denominator of a nonzero
numerator gives positive or negative infinity by the numerator sign). -/
def div : JSNum → JSNum → JSNum
  | nan, _ => nan
  | _, nan => nan
  | inf, inf => nan
  | inf, ninf => nan
  | ninf, inf => nan
  | ninf, ninf => nan
  | inf, fin y => if 0 ≤ y then inf else ninf
  | ninf, fin y => if 0 ≤ y then ninf else inf
  | fin _, inf => fin 0
  | fin _, ninf => fin 0
  | fin x, fin y =>
    if y = 0 then (if x = 0 then nan else if 0 < x then inf else ninf)
    else fin (x / y)

/-- JS Math.max of two arguments (NaN if either argument is NaN). -/
def jmax : JSNum → JSNum → JSNum
  | nan, _ => nan
  | _, nan => nan
  | inf, _ => inf
  | _, inf => inf
  | ninf, b => b
  | a, ninf => a
  | fin x, fin y => fin (max x y)

/-- JS Math.min of two arguments (NaN if either argument is NaN). -/
def jmin : JSNum → JSNum → JSNum
  | nan, _ => nan
  | _, nan => nan
  | ninf, _ => ninf
  | _, ninf => ninf
  | inf, b => b
  | a, inf => a
  | fin x, fin y => fin (min x y)

/-- JS Math.log10. -/
def log10 : JSNum → JSNum
  | nan => nan
  | inf => inf
  | ninf => nan
  | fin x => if x < 0 then nan else if x = 0 then ninf else fin (Real.logb 10 x)

end JSNum

/-- The clamp helper of casualty.ts over JS numbers. -/
def clampJS (v lo hi : JSNum) : JSNum := JSNum.jmax lo (JSNum.jmin hi v)

/-- roundSig from casualty.ts lines 20-26 over JS numbers: the guard
sends a non-finite or non-positive input (including NaN, for which the
JS comparison n less-or-equal 0 is false but isFinite already fails) to 0;
a finite positive input follows the exact mantissa computation. -/
def roundSigJS : JSNum → JSNum
  | .nan => .fin 0
  | .inf => .fin 0
  | .ninf => .fin 0
  | .fin x =>
    if x ≤ 0 then .fin 0
    else
      let e := ⌊Real.logb 10 x⌋
      let m := x / (10:ℝ) ^ (e:ℤ)
      let sig : ℝ := if m < 1.5 then 1 else if m < 3.5 then 2 else if m < 7.5 then 5 else 10
      .fin (sig * (10:ℝ) ^ (e:ℤ))

/-- The fields of a CasualtyEstimate relevant to the JS-number model (the
nested density record only echoes the input). -/
structure CasualtyEstimateJS where
  densityPkm2 : JSNum
  areaKm2 : JSNum
  fatalityRate : JSNum
  casualties : JSNum

/-- estimateCasualties from casualty.ts lines 102-132 over JS numbers,
with the exact evaluation order of the source expressions. -/
def estimateCasualtiesJS (energyTNT craterKm blastRadiusKm densityPkm2 : JSNum)
    (tsunamiRisk : TsunamiRisk) : CasualtyEstimateJS :=
  let craterR := JSNum.jmax (.fin 0) (JSNum.div craterKm (.fin 2))
  let Re := JSNum.jmax (.fin 0.1)
    (JSNum.add craterR (JSNum.mul (.fin 0.6) (JSNum.jmax (.fin 0) blastRadiusKm)))
  let areaKm2 := JSNum.mul (JSNum.mul (.fin Real.pi) Re) Re
  let baseF := clampJS
    (JSNum.add (.fin 0.08)
      (JSNum.mul (.fin 0.12) (JSNum.log10 (JSNum.jmax (.fin 1e-6) energyTNT))))
    (.fin 0.03) (.fin 0.75)
  let adj : JSNum := .fin
    (match tsunamiRisk with
      | .EXTREME => 0.20
      | .HIGH => 0.12
      | .MODERATE => 0.06
      | .LOW => 0.02
      | _ => 0)
  let fatalityRate := clampJS (JSNum.add baseF adj) (.fin 0.03) (.fin 0.9)
  let casualtiesRaw := JSNum.mul (JSNum.mul densityPkm2 areaKm2) fatalityRate
  let casualties := roundSigJS casualtiesRaw
  { densityPkm2 := densityPkm2
    areaKm2 := areaKm2
    fatalityRate := fatalityRate
    casualties := casualties }

/-! ## Quiz question builders (src/lib/dynamics.ts, casualty.ts, tsunami.ts)

Each builder shuffles its options with a random permutation drawn inside
the function (sort with a random comparator); the embedding passes that
permutation draw as the explicit order argument.  Where a builder pads
with further random draws (buildSeismicQuestion), those draws are the
explicit fill argument. -/

/-- The question record Q of src/lib/dynamics.ts. -/
structure Q where
  q : String
  choices : List String
  explanations : List String
  answer : ℤ

/-- JS Array.prototype.indexOf: the index of the first occurrence, or -1
when absent. -/
def jsIndexOf {α : Type} [DecidableEq α] (l : List α) (a : α) : ℤ :=
  if a ∈ l then l.indexOf a else -1

/-- The collision loop shared by the option generators: while the
candidate is already taken, advance it by at least one (by the given step
function).  Terminates because the candidate strictly increases and must
eventually exceed the largest taken value. -/
def bumpBy (step : ℤ → ℤ) (taken : List ℤ) (x : ℤ) : ℤ :=
  if h : x ∈ taken then bumpBy step taken (x + max 1 (step x)) else x
termination_by (taken.foldr max 0 + 1 - x).toNat
decreasing_by
  have hle : x ≤ taken.foldr max 0 := by
    clear * - h
    induction taken with
    | nil => cases h
    | cons a l ih =>
      rcases List.mem_cons.mp h with rfl | hmem
      · exact le_max_left _ _
      · exact le_trans (ih hmem) (le_max_right _ _)
  have h1 : (1:ℤ) ≤ max 1 (step x) := le_max_left _ _
  omega

/-- The generic grow-a-unique-list loop: append each seeded candidate
after bumping it past the values already present. -/
def growUnique (step : ℤ → ℤ) (f : ℝ → ℤ) (vals : List ℝ) (acc : List ℤ) : List ℤ :=
  vals.foldl (fun out v => out ++ [bumpBy step out (f v)]) acc

/-- The step of uniqInts in dynamics.ts line 11 (also the add helper of
buildCasualtyQuestion, casualty.ts line 165): advance by
max(1, round(0.03 x)). -/
def uiStep (x : ℤ) : ℤ := jsRound ((x:ℝ) * 0.03)

/-- uniqInts from src/lib/dynamics.ts lines 6-16 (the set and the output
array hold the same values). -/
def uniqInts (vals : List ℝ) : List ℤ :=
  growUnique uiStep (fun v => max 1 (jsRound v)) vals []

/-- JS Array.from(new Set(list)): first occurrences in insertion order. -/
def insertionDedup (l : List ℝ) : List ℝ :=
  l.foldl (fun acc a => if a ∈ acc then acc else acc ++ [a]) []

/-- The toFixed rounding over the rationals (used where the source divides
integers before formatting). -/
def jsRoundQ (q : ℚ) : ℤ := ⌊q + 1/2⌋

/-- Number(x.toFixed(1)): x rounded to one decimal. -/
def toFixed1Num (x : ℝ) : ℝ := (jsRound (10 * x) : ℝ) / 10

/-- A rational rendered by toFixed(0). -/
def toFixed0Q (q : ℚ) : String := renderInt (jsRoundQ q)

/-- A rational rendered by toFixed(1). -/
def toFixed1Q (q : ℚ) : String := renderTenths (jsRoundQ (10 * q))

/-- The compact label formatter fmt of buildCasualtyQuestion (casualty.ts
lines 175-178), on the integer option values it receives. -/
def fmt (n : ℤ) : String :=
  if 1000000 ≤ n then
    (if 10000000 ≤ n then toFixed0Q ((n : ℚ) / 1000000)
     else toFixed1Q ((n : ℚ) / 1000000)) ++ "M"
  else if 1000 ≤ n then
    (if 10000 ≤ n then toFixed0Q ((n : ℚ) / 1000)
     else toFixed1Q ((n : ℚ) / 1000)) ++ "k"
  else renderInt n

/-- The interpolated rendering of a risk label. -/
def renderRisk : TsunamiRisk → String
  | .EXTREME => "EXTREME"
  | .HIGH => "HIGH"
  | .MODERATE => "MODERATE"
  | .LOW => "LOW"
  | .NEGLIGIBLE => "NEGLIGIBLE"
  | .unable => "Unable to determine"

/-- The interpolated risk label lowered by toLowerCase. -/
def renderRiskLower : TsunamiRisk → String
  | .EXTREME => "extreme"
  | .HIGH => "high"
  | .MODERATE => "moderate"
  | .LOW => "low"
  | .NEGLIGIBLE => "negligible"
  | .unable => "unable to determine"

/-- The interpolated rendering of a terrain label. -/
def renderTerrain : TerrainKind → String
  | .oceanSea => "Ocean/Sea"
  | .coastalLowLying => "Coastal/Low-lying"
  | .plainsValley => "Plains/Valley"
  | .hillsPlateau => "Hills/Plateau"
  | .mountains => "Mountains"
  | .unknown => "Unknown"

/-- buildThermalQuestion from src/lib/dynamics.ts lines 24-48. -/
def buildThermalQuestion (energyTNT : ℝ) (order : List ℕ) : Q :=
  let r := clamp (3.0 * jsCbrt (max energyTNT 0)) 1 200
  let vals := uniqInts [r, r * 0.55, r * 0.8, r * 1.6]
  let correctRaw := vals.getD 0 0
  let optionsRaw := vals.map (fun v => "~" ++ renderInt v ++ " km radius for severe thermal burns")
  let explanationsRaw := vals.enum.map (fun p =>
    if p.1 = 0 then
      "Scales as E^(1/3); with " ++ toFixed2Str energyTNT
        ++ " Mt, the severe-burn radius is ~" ++ renderInt (jsRound r) ++ " km."
    else if (p.2 : ℝ) < r then
      "Undershoots by ~" ++ renderInt |p.2 - jsRound r| ++ " km — too small for this energy."
    else
      "Overshoots by ~" ++ renderInt |p.2 - jsRound r| ++ " km — too large for this energy.")
  { q := "Approximate radius of severe thermal burns from this impact:"
    choices := order.map (fun i => optionsRaw.getD i "")
    explanations := order.map (fun i => explanationsRaw.getD i "")
    answer := jsIndexOf order (jsIndexOf vals correctRaw).toNat }

/-- buildSeismicQuestion from src/lib/dynamics.ts lines 54-88; fill holds
the random padding draws of the uniqueness loop (rounded to one decimal as
the source does), unused whenever the four candidates are distinct. -/
def buildSeismicQuestion (energyTNT : ℝ) (order : List ℕ) (fill : List ℝ) : Q :=
  let M := 4 + Real.logb 10 (max energyTNT 1e-6)
  let center := toFixed1Num M
  let candidates := [center, center - 0.6, center + 0.4, center - 0.2].map toFixed1Num
  let unique := insertionDedup candidates
  let padded := unique ++ (fill.map toFixed1Num).take (4 - unique.length)
  let correct := padded.getD 0 0
  let optionsRaw := padded.map (fun v => "Magnitude " ++ toFixed1Str v)
  let explanationsRaw := padded.map (fun v =>
    if v = correct then
      "Using M ≈ 4 + log10(E_Mt) with E=" ++ toFixed2Str energyTNT
        ++ " Mt ⇒ M≈" ++ toFixed1Str center ++ "."
    else
      "Off by ~" ++ toFixed1Str |v - center| ++ " magnitude units from the E→M estimate.")
  { q := "Earthquake magnitude equivalent of this impact (order-of-magnitude):"
    choices := order.map (fun i => optionsRaw.getD i "")
    explanations := order.map (fun i => explanationsRaw.getD i "")
    answer := jsIndexOf order (jsIndexOf padded correct).toNat }

/-- The findIndex over the four energy-class predicates of
buildEnergyClassQuestion (dynamics.ts lines 95-101). -/
def energyClassIdx (e : ℝ) : ℤ :=
  if e < 1 then 0
  else if 1 ≤ e ∧ e < 100 then 1
  else if 100 ≤ e ∧ e < 1000 then 2
  else if 1000 ≤ e then 3
  else -1

/-- buildEnergyClassQuestion from src/lib/dynamics.ts lines 94-113 (no
shuffle in the source). -/
def buildEnergyClassQuestion (energyTNT : ℝ) : Q :=
  let answer := energyClassIdx energyTNT
  let choices := ["City-killer (< 1 Mt)", "Regional (1–100 Mt)",
    "Continental (100–1000 Mt)", "Global (> 1000 Mt)"]
  let explanations := choices.enum.map (fun p =>
    if (p.1 : ℤ) = answer then
      "At " ++ toFixed2Str energyTNT ++ " Mt, this fits the “" ++ p.2 ++ "” bracket."
    else "Does not match " ++ toFixed2Str energyTNT ++ " Mt.")
  { q := "Which category best describes the impact energy?"
    choices := choices
    explanations := explanations
    answer := max 0 answer }

/-- The levels array of buildTsunamiQuestion (tsunami.ts line 317). -/
def tsunamiLevels : List TsunamiRisk := [.NEGLIGIBLE, .LOW, .MODERATE, .HIGH, .EXTREME]

/-- The clamp-to-height helper clampH of buildTsunamiQuestion (tsunami.ts
line 344). -/
def clampH (v : ℝ) : ℤ := max 1 (min 200 (jsRound v))

/-- The risk-only branch of buildTsunamiQuestion (tsunami.ts lines
316-341); the source applies no shuffle here. -/
def buildTsunamiRiskOnly (a : TsunamiAssessment) : Q :=
  let answerIdx : ℤ :=
    if a.risk = .unable then 0 else max 0 (jsIndexOf tsunamiLevels a.risk)
  let choices :=
    if a.risk = .unable then ["Unable to determine", "LOW", "MODERATE", "HIGH"]
    else tsunamiLevels.map renderRisk
  let explanations := choices.map (fun c =>
    if c = "Unable to determine" then
      "Elevation/terrain data was unavailable, so a terrain-aware tsunami estimate could not be made."
    else if c = renderRisk a.risk then
      "Terrain classification is \"" ++ renderTerrain a.terrain
        ++ "\" with the current impact energy, which yields a " ++ renderRiskLower a.risk
        ++ " tsunami risk at the coast."
    else
      "This risk level does not match the computed terrain-aware estimate for the current impact location.")
  { q := "Based on this impact location and terrain, what is the tsunami risk?"
    choices := choices
    explanations := explanations
    answer := answerIdx }

/-- buildTsunamiQuestion from src/lib/tsunami.ts lines 314-386. -/
def buildTsunamiQuestion (a : TsunamiAssessment) (order : List ℕ) : Q :=
  match a.waveCoastM with
  | Option.none => buildTsunamiRiskOnly a
  | some w =>
    if w < 1 then buildTsunamiRiskOnly a
    else
      let target := clampH w
      let heights := growUnique (fun _ => 1) clampH
        [(target:ℝ), (target:ℝ) * 0.55, (target:ℝ) * 0.8, (target:ℝ) * 1.6] []
      let options := heights.map (fun h =>
        renderRisk a.risk ++ " risk with ~" ++ renderInt h ++ " m coastal waves")
      let correctIndexRaw := jsIndexOf heights target
      let explanationsRaw := heights.enum.map (fun p =>
        if (p.1 : ℤ) = correctIndexRaw then
          "Using the current energy and \"" ++ renderTerrain a.terrain
            ++ "\" terrain, the deep-water wave is transformed by shoaling near the coast, yielding ~"
            ++ renderInt target ++ " m."
        else if p.2 < target then
          "Undershoots the terrain-aware estimate by about " ++ renderInt |p.2 - target|
            ++ " m — too low for this energy/terrain."
        else
          "Overshoots the terrain-aware estimate by about " ++ renderInt |p.2 - target|
            ++ " m — too high for this energy/terrain.")
      { q := "Given this impact location and terrain, what is the best estimate for coastal tsunami height?"
        choices := order.map (fun i => options.getD i "")
        explanations := order.map (fun i => explanationsRaw.getD i "")
        answer := jsIndexOf order correctIndexRaw.toNat }

/-- buildCasualtyQuestion from src/lib/casualty.ts lines 135-206; the add
helper over a set (lines 161-173) is the same computation as uniqInts. -/
def buildCasualtyQuestion (casualties areaKm2 fatalityRate : ℝ)
    (density : DensityAssessment) (order : List ℕ) : Q :=
  if casualties ≤ 0 then
    { q := "Which factors primarily determine the death toll from an impact?"
      choices := ["Impact energy", "Population density", "Local terrain/elevation",
        "All of the above"]
      explanations := ["Energy sets the scale but alone does not determine casualties.",
        "Density matters a lot, but not alone.",
        "Terrain shapes effects (e.g., tsunami), but not alone.",
        "Correct — casualties depend on energy, density, AND terrain together."]
      answer := 3 }
  else
    let c := max 1 (jsRound casualties)
    let arr := (uniqInts [(c:ℝ), (c:ℝ) * 0.45, (c:ℝ) * 0.75, (c:ℝ) * 1.6]).take 4
    let optionsRaw := arr.map (fun n => "~" ++ fmt n ++ " people")
    let correctIdxRaw := jsIndexOf arr c
    let explanationsRaw := arr.enum.map (fun p =>
      if (p.1 : ℤ) = correctIdxRaw then
        "Matches ~" ++ fmt c ++ " based on area ≈ " ++ toFixed0Str areaKm2
          ++ " km², fatality rate ≈ " ++ toFixed0Str (fatalityRate * 100)
          ++ "%, and density ≈ " ++ renderInt (jsRound density.densityPkm2)
          ++ " ppl/km² ("
          ++ (if density.source = .overpass then density.category else "fallback") ++ ")."
      else if p.2 < c then
        "Undershoots by roughly " ++ fmt |p.2 - c|
          ++ " — too low for this density and affected area."
      else
        "Overshoots by roughly " ++ fmt |p.2 - c|
          ++ " — too high for this density and affected area.")
    { q := "Approximate death toll for this impact (population-density aware):"
      choices := order.map (fun i => optionsRaw.getD i "")
      explanations := order.map (fun i => explanationsRaw.getD i "")
      answer := jsIndexOf order correctIdxRaw.toNat }

/-- The structural specification of a four-option quiz question stated by
the specification for every builder: four pairwise-distinct choices, four
aligned explanations, and an answer index in 0..3. -/
def QOk (p : Q) : Prop :=
  p.choices.length = 4 ∧ p.choices.Nodup ∧ p.explanations.length = 4 ∧
    0 ≤ p.answer ∧ p.answer ≤ 3

/-- The five-option variant actually produced by the risk-only tsunami
branch when the risk label is determinate. -/
def QOk5 (p : Q) : Prop :=
  p.choices.length = 5 ∧ p.choices.Nodup ∧ p.explanations.length = 5 ∧
    0 ≤ p.answer ∧ p.answer ≤ 4

/-! ## DEFINITIONS END -/

/-! ## Helper lemmas -/

theorem jsCbrt_of_nonneg {x : ℝ} (hx : 0 ≤ x) : jsCbrt x = x ^ ((1:ℝ)/3) := by
  simp [jsCbrt, not_lt.mpr hx]

theorem jsCbrt_nonneg {x : ℝ} (hx : 0 ≤ x) : 0 ≤ jsCbrt x := by
  rw [jsCbrt_of_nonneg hx]; exact Real.rpow_nonneg hx _

/-- The cube of the rpow cube root of a nonnegative real recovers the real. -/
theorem rpow_third_cube {x : ℝ} (hx : 0 ≤ x) : (x ^ ((1:ℝ)/3)) ^ (3:ℕ) = x := by
  rw [← Real.rpow_natCast (x ^ ((1:ℝ)/3)) 3, ← Real.rpow_mul hx]
  norm_num

theorem lt_rpow_third {x a : ℝ} (hx : 0 ≤ x) (h : a ^ (3:ℕ) < x) :
    a < x ^ ((1:ℝ)/3) := by
  by_contra hc
  push_neg at hc
  have h3 : x ≤ a ^ (3:ℕ) := by
    calc x = (x ^ ((1:ℝ)/3)) ^ (3:ℕ) := (rpow_third_cube hx).symm
    _ ≤ a ^ (3:ℕ) := pow_le_pow_left₀ (Real.rpow_nonneg hx _) hc 3
  linarith

theorem rpow_third_lt {x b : ℝ} (hx : 0 ≤ x) (hb : 0 ≤ b) (h : x < b ^ (3:ℕ)) :
    x ^ ((1:ℝ)/3) < b := by
  by_contra hc
  push_neg at hc
  have h3 : b ^ (3:ℕ) ≤ x := by
    calc b ^ (3:ℕ) ≤ (x ^ ((1:ℝ)/3)) ^ (3:ℕ) := pow_le_pow_left₀ hb hc 3
    _ = x := rpow_third_cube hx
  linarith

theorem digitChar_toNat {d : ℕ} (hd : d < 10) : (digitChar d).toNat = 48 + d := by
  interval_cases d <;> decide

theorem digitChar_inj {d e : ℕ} (hd : d < 10) (he : e < 10)
    (h : digitChar d = digitChar e) : d = e := by
  have := digitChar_toNat hd
  have := digitChar_toNat he
  have : (digitChar d).toNat = (digitChar e).toNat := by rw [h]
  omega

theorem map_digitChar_inj : ∀ (l m : List ℕ), (∀ x ∈ l, x < 10) → (∀ x ∈ m, x < 10) →
    l.map digitChar = m.map digitChar → l = m
  | [], [], _, _, _ => rfl
  | [], _ :: _, _, _, h => by simp at h
  | _ :: _, [], _, _, h => by simp at h
  | a :: l, b :: m, hl, hm, h => by
    simp only [List.map_cons, List.cons.injEq] at h
    have ha := hl a (by simp)
    have hb := hm b (by simp)
    have : l = m := map_digitChar_inj l m (fun x hx => hl x (by simp [hx]))
      (fun x hx => hm x (by simp [hx])) h.2
    simp [digitChar_inj ha hb h.1, this]

theorem renderNat_inj : Function.Injective renderNat := by
  intro n m h
  by_cases hn : n = 0 <;> by_cases hm : m = 0
  · simp [hn, hm]
  · exfalso
    simp only [renderNat, if_pos hn, if_neg hm] at h
    have hdata : ['0'] = ((Nat.digits 10 m).map digitChar).reverse := by
      have := congrArg String.data h
      simpa using this
    have hrev : (Nat.digits 10 m).map digitChar = ['0'] := by
      have := congrArg List.reverse hdata
      simpa using this.symm
    have hdig : Nat.digits 10 m = [0] := by
      rcases hd : Nat.digits 10 m with _ | ⟨d, rest⟩
      · rw [hd] at hrev; simp at hrev
      · rw [hd] at hrev
        simp only [List.map_cons, List.cons.injEq] at hrev
        have hd10 : d < 10 := Nat.digits_lt_base (by norm_num) (by rw [hd]; simp)
        have : d = 0 := digitChar_inj hd10 (by norm_num) hrev.1
        have : rest = [] := by simpa using congrArg List.length hrev.2
        simp_all
    have : m = 0 := by
      have := Nat.ofDigits_digits 10 m
      rw [hdig] at this
      simpa using this.symm
    exact hm this
  · exfalso
    simp only [renderNat, if_neg hn, if_pos hm] at h
    have hdata : ((Nat.digits 10 n).map digitChar).reverse = ['0'] := by
      have := congrArg String.data h
      simpa using this
    have hrev : (Nat.digits 10 n).map digitChar = ['0'] := by
      have := congrArg List.reverse hdata
      simpa using this
    have hdig : Nat.digits 10 n = [0] := by
      rcases hd : Nat.digits 10 n with _ | ⟨d, rest⟩
      · rw [hd] at hrev; simp at hrev
      · rw [hd] at hrev
        simp only [List.map_cons, List.cons.injEq] at hrev
        have hd10 : d < 10 := Nat.digits_lt_base (by norm_num) (by rw [hd]; simp)
        have : d = 0 := digitChar_inj hd10 (by norm_num) hrev.1
        have : rest = [] := by simpa using congrArg List.length hrev.2
        simp_all
    have : n = 0 := by
      have := Nat.ofDigits_digits 10 n
      rw [hdig] at this
      simpa using this.symm
    exact hn this
  · simp only [renderNat, if_neg hn, if_neg hm] at h
    have hdata := congrArg String.data h
    simp only [String.data] at hdata
    have hmap : (Nat.digits 10 n).map digitChar = (Nat.digits 10 m).map digitChar :=
      List.reverse_injective hdata
    have hdig : Nat.digits 10 n = Nat.digits 10 m :=
      map_digitChar_inj _ _ (fun x hx => Nat.digits_lt_base (by norm_num) hx)
        (fun x hx => Nat.digits_lt_base (by norm_num) hx) hmap
    calc n = Nat.ofDigits 10 (Nat.digits 10 n) := (Nat.ofDigits_digits 10 n).symm
    _ = Nat.ofDigits 10 (Nat.digits 10 m) := by rw [hdig]
    _ = m := Nat.ofDigits_digits 10 m

theorem renderNat_chars {n : ℕ} {c : Char} (hc : c ∈ (renderNat n).data) :
    48 ≤ c.toNat ∧ c.toNat ≤ 57 := by
  by_cases hn : n = 0
  · simp only [renderNat, if_pos hn] at hc
    have : c = '0' := by simpa using hc
    simp [this]
  · simp only [renderNat, if_neg hn] at hc
    have hc' : c ∈ (Nat.digits 10 n).map digitChar := (List.mem_reverse).mp hc
    obtain ⟨d, hd, rfl⟩ := List.mem_map.mp hc'
    have hd10 : d < 10 := Nat.digits_lt_base (by norm_num) hd
    have := digitChar_toNat hd10
    omega

theorem renderNat_ne_nil (n : ℕ) : (renderNat n).data ≠ [] := by
  by_cases hn : n = 0
  · simp [renderNat, hn]
  · simp only [renderNat, if_neg hn]
    intro h
    have hne : Nat.digits 10 n ≠ [] := Nat.digits_ne_nil_iff_ne_zero.mpr hn
    rcases hd : Nat.digits 10 n with _ | ⟨d, rest⟩
    · exact hne hd
    · rw [hd] at h; simp at h

theorem string_data_inj {s t : String} (h : s.data = t.data) : s = t := by
  cases s; cases t; simp_all

theorem dash_not_mem_renderNat (n : ℕ) : '-' ∉ (renderNat n).data := by
  intro hmem
  have h1 := renderNat_chars hmem
  have h2 : ('-').toNat = 45 := by decide
  omega

theorem renderInt_inj : Function.Injective renderInt := by
  intro k m h
  by_cases hk : k < 0 <;> by_cases hm : m < 0
  · simp only [renderInt, if_pos hk, if_pos hm] at h
    have hdata := congrArg String.data h
    simp only [String.data_append] at hdata
    have hnat : (renderNat k.natAbs).data = (renderNat m.natAbs).data :=
      List.append_cancel_left hdata
    have := renderNat_inj (string_data_inj hnat)
    omega
  · exfalso
    simp only [renderInt, if_pos hk, if_neg hm] at h
    have hdata := congrArg String.data h
    simp only [String.data_append] at hdata
    have hmem : '-' ∈ (renderNat m.natAbs).data := by
      rw [← hdata]
      simp
    exact dash_not_mem_renderNat _ hmem
  · exfalso
    simp only [renderInt, if_neg hk, if_pos hm] at h
    have hdata := congrArg String.data h
    simp only [String.data_append] at hdata
    have hmem : '-' ∈ (renderNat k.natAbs).data := by
      rw [hdata]
      simp
    exact dash_not_mem_renderNat _ hmem
  · simp only [renderInt, if_neg hk, if_neg hm] at h
    have := renderNat_inj h
    omega

theorem estimateEnergy_eq_spec (size density speed : ℝ) :
    estimateEnergyMtTNT size density speed = specEnergyMtTNT size density speed := by
  simp only [estimateEnergyMtTNT, specEnergyMtTNT]
  ring

theorem specEnergy_nonneg {size density speed : ℝ}
    (hs : 0 ≤ size) (hd : 0 ≤ density) (hv : 0 ≤ speed) :
    0 ≤ specEnergyMtTNT size density speed := by
  unfold specEnergyMtTNT
  have h1 : (0:ℝ) ≤ (size/2)^3 := by positivity
  have h2 : (0:ℝ) ≤ (speed*1000)^2 := by positivity
  have hpi : (0:ℝ) ≤ Real.pi := Real.pi_pos.le
  positivity


theorem sigmoidFalloff_eq_zero {d i o : ℝ} (h1 : o ≤ d) (h2 : i < d) :
    sigmoidFalloff d i o = 0 := by
  simp only [sigmoidFalloff]
  by_cases hoi : o ≤ i
  · rw [if_pos hoi, if_neg (not_le.mpr h2)]
  · rw [if_neg hoi, if_neg (not_le.mpr h2)]
    push_neg at hoi
    have hpos : 0 < o - i := by linarith
    have hge : (1:ℝ) ≤ (d - i) / (o - i) := by
      rw [le_div_iff hpos]; linarith
    have h0 : max 0 ((d - i) / (o - i)) = (d - i) / (o - i) :=
      max_eq_right (by linarith)
    have ht : min 1 (max 0 ((d - i) / (o - i))) = 1 := by
      rw [h0]; exact min_eq_left hge
    rw [ht]
    norm_num

theorem toFixed2Num_zero : toFixed2Num 0 = 0 := by
  simp only [toFixed2Num, jsRound]
  norm_num

theorem toFixed2Num_one : toFixed2Num 1 = 1 := by
  simp only [toFixed2Num, jsRound]
  norm_num

theorem haversine_self (lat lon : ℝ) : haversineKm lat lon lat lon = 0 := by
  simp [haversineKm]

theorem haversine_antipodal : haversineKm 0 0 0 180 = 6371 * Real.pi := by
  simp only [haversineKm]
  have h1 : ((0:ℝ) - 0) * Real.pi / 180 = 0 := by ring
  have h2 : ((180:ℝ) - 0) * Real.pi / 180 / 2 = Real.pi / 2 := by ring
  have h3 : (0:ℝ) * Real.pi / 180 = 0 := by ring
  rw [h1, h3]
  norm_num [Real.sin_zero, Real.cos_zero, h2, Real.sin_pi_div_two, Real.arcsin_one]
  ring

/-- Step equation: an element without a place tag is skipped. -/
theorem bestPlaceStep_none_tag (best : Option String) : bestPlaceStep best none = best := rfl

/-- Step equation: a tagged element seen with an empty accumulator. -/
theorem bestPlaceStep_none_acc (place : String) :
    bestPlaceStep none (some place)
      = if (placeDensity place).isSome then some place else none := rfl

/-- Step equation: a tagged element seen with an occupied accumulator. -/
theorem bestPlaceStep_some_acc (b place : String) :
    bestPlaceStep (some b) (some place)
      = if (placeDensity place).isSome then
          (if (placeDensity b).getD 0 < (placeDensity place).getD 0
            then some place else some b)
        else some b := rfl

/-- A step result is none exactly when the accumulator was empty and the
element carries no matching tag. -/
theorem bestPlaceStep_eq_none (acc p : Option String) :
    bestPlaceStep acc p = none ↔
      acc = none ∧ ∀ s, p = some s → ¬(placeDensity s).isSome := by
  rcases p with _ | place
  · simp [bestPlaceStep_none_tag]
  · rcases acc with _ | b
    · rw [bestPlaceStep_none_acc]
      by_cases hgood : (placeDensity place).isSome
      · rw [if_pos hgood]
        constructor
        · intro h; simp at h
        · rintro ⟨-, h2⟩; exact absurd hgood (h2 place rfl)
      · rw [if_neg hgood]
        constructor
        · intro h
          refine ⟨rfl, ?_⟩
          intro s hs
          injection hs with hs
          rw [← hs]; exact hgood
        · intro h; rfl
    · rw [bestPlaceStep_some_acc]
      constructor
      · intro h
        by_cases hgood : (placeDensity place).isSome
        · rw [if_pos hgood] at h
          by_cases hlt : (placeDensity b).getD 0 < (placeDensity place).getD 0 <;>
            simp [hlt] at h
        · rw [if_neg hgood] at h; simp at h
      · rintro ⟨h, -⟩; simp at h

/-- A step result is either the old accumulator or the (matching) new tag. -/
theorem bestPlaceStep_some_cases {acc p : Option String} {c : String}
    (h : bestPlaceStep acc p = some c) :
    acc = some c ∨ (p = some c ∧ (placeDensity c).isSome) := by
  rcases p with _ | place
  · rw [bestPlaceStep_none_tag] at h
    exact Or.inl h
  · by_cases hgood : (placeDensity place).isSome
    · rcases acc with _ | b
      · rw [bestPlaceStep_none_acc, if_pos hgood] at h
        injection h with h
        exact Or.inr ⟨by rw [h], by rw [← h]; exact hgood⟩
      · rw [bestPlaceStep_some_acc, if_pos hgood] at h
        by_cases hlt : (placeDensity b).getD 0 < (placeDensity place).getD 0
        · rw [if_pos hlt] at h
          injection h with h
          exact Or.inr ⟨by rw [h], by rw [← h]; exact hgood⟩
        · rw [if_neg hlt] at h
          exact Or.inl h
    · rcases acc with _ | b
      · rw [bestPlaceStep_none_acc, if_neg hgood] at h
        simp at h
      · rw [bestPlaceStep_some_acc, if_neg hgood] at h
        exact Or.inl h

/-- A step started from an occupied accumulator stays occupied and its
density never decreases. -/
theorem bestPlaceStep_of_some (b : String) (p : Option String) :
    ∃ b2, bestPlaceStep (some b) p = some b2 ∧
      (placeDensity b).getD 0 ≤ (placeDensity b2).getD 0 := by
  rcases p with _ | place
  · exact ⟨b, rfl, le_refl _⟩
  · rw [bestPlaceStep_some_acc]
    by_cases hgood : (placeDensity place).isSome
    · by_cases hlt : (placeDensity b).getD 0 < (placeDensity place).getD 0
      · exact ⟨place, by rw [if_pos hgood, if_pos hlt], le_of_lt hlt⟩
      · exact ⟨b, by rw [if_pos hgood, if_neg hlt], le_refl _⟩
    · exact ⟨b, by rw [if_neg hgood], le_refl _⟩

/-- After a step on a matching tag, the accumulator dominates that tag. -/
theorem bestPlaceStep_dominates {s : String} (acc : Option String)
    (hgood : (placeDensity s).isSome) :
    ∃ b2, bestPlaceStep acc (some s) = some b2 ∧
      (placeDensity s).getD 0 ≤ (placeDensity b2).getD 0 := by
  rcases acc with _ | b
  · exact ⟨s, by rw [bestPlaceStep_none_acc, if_pos hgood], le_refl _⟩
  · rw [bestPlaceStep_some_acc, if_pos hgood]
    by_cases hlt : (placeDensity b).getD 0 < (placeDensity s).getD 0
    · exact ⟨s, by rw [if_pos hlt], le_refl _⟩
    · exact ⟨b, by rw [if_neg hlt], not_lt.mp hlt⟩

/-- The fold returns none exactly when the accumulator started empty and
no element carries a matching tag. -/
theorem foldl_bestPlaceStep_eq_none : ∀ (els : List (Option String)) (acc : Option String),
    els.foldl bestPlaceStep acc = none ↔
      acc = none ∧ ∀ s, some s ∈ els → ¬(placeDensity s).isSome
  | [], acc => by simp
  | p :: els, acc => by
    rw [List.foldl_cons, foldl_bestPlaceStep_eq_none els (bestPlaceStep acc p),
      bestPlaceStep_eq_none]
    constructor
    · rintro ⟨⟨h1, h2⟩, h3⟩
      refine ⟨h1, ?_⟩
      intro s hs
      rcases List.mem_cons.mp hs with hs | hs
      · exact h2 s hs.symm
      · exact h3 s hs
    · rintro ⟨h1, h2⟩
      refine ⟨⟨h1, ?_⟩, ?_⟩
      · intro s hs
        refine h2 s ?_
        rw [hs]
        exact List.mem_cons_self _ _
      · intro s hs
        exact h2 s (List.mem_cons_of_mem _ hs)

/-- A some result of the fold is a matching tag from the accumulator or
the list. -/
theorem foldl_bestPlaceStep_some : ∀ (els : List (Option String)) (acc : Option String),
    (∀ b, acc = some b → (placeDensity b).isSome) →
    ∀ c, els.foldl bestPlaceStep acc = some c →
      (placeDensity c).isSome ∧ (acc = some c ∨ some c ∈ els)
  | [], acc, hacc, c, hc => by
    simp only [List.foldl_nil] at hc
    exact ⟨hacc c hc, Or.inl hc⟩
  | p :: els, acc, hacc, c, hc => by
    rw [List.foldl_cons] at hc
    have hacc' : ∀ b, bestPlaceStep acc p = some b → (placeDensity b).isSome := by
      intro b hb
      rcases bestPlaceStep_some_cases hb with h | ⟨-, h⟩
      · exact hacc b h
      · exact h
    obtain ⟨hgood, hmem⟩ := foldl_bestPlaceStep_some els (bestPlaceStep acc p) hacc' c hc
    refine ⟨hgood, ?_⟩
    rcases hmem with hstep | hin
    · rcases bestPlaceStep_some_cases hstep with h | ⟨h, -⟩
      · exact Or.inl h
      · refine Or.inr ?_
        rw [h]
        exact List.mem_cons_self _ _
    · exact Or.inr (List.mem_cons_of_mem _ hin)

/-- A some result of the fold dominates the accumulator and every matching
tag of the list. -/
theorem foldl_bestPlaceStep_ge : ∀ (els : List (Option String)) (acc : Option String),
    ∀ c, els.foldl bestPlaceStep acc = some c →
      (∀ b, acc = some b → (placeDensity b).getD 0 ≤ (placeDensity c).getD 0) ∧
      (∀ s, some s ∈ els → (placeDensity s).isSome →
        (placeDensity s).getD 0 ≤ (placeDensity c).getD 0)
  | [], acc, c, hc => by
    simp only [List.foldl_nil] at hc
    refine ⟨?_, by simp⟩
    intro b hb
    rw [hb] at hc
    injection hc with hc
    rw [hc]
  | p :: els, acc, c, hc => by
    rw [List.foldl_cons] at hc
    obtain ⟨ihacc, ihels⟩ := foldl_bestPlaceStep_ge els (bestPlaceStep acc p) c hc
    constructor
    · intro b hb
      subst hb
      obtain ⟨b2, hb2, hle⟩ := bestPlaceStep_of_some b p
      exact le_trans hle (ihacc b2 hb2)
    · intro s hs hsgood
      rcases List.mem_cons.mp hs with hs | hs
      · obtain ⟨b2, hb2, hle⟩ := bestPlaceStep_dominates acc hsgood
        rw [hs] at hb2
        exact le_trans hle (ihacc b2 hb2)
      · exact ihels s hs hsgood

/-- The floor of the base-10 logarithm brackets a positive real between
consecutive powers of 10. -/
theorem zpow_floor_logb_le {n : ℝ} (h : 0 < n) :
    (10:ℝ) ^ (⌊Real.logb 10 n⌋) ≤ n ∧ n < (10:ℝ) ^ (⌊Real.logb 10 n⌋ + 1) := by
  have hb : (1:ℝ) < 10 := by norm_num
  constructor
  · calc (10:ℝ) ^ ⌊Real.logb 10 n⌋ = (10:ℝ) ^ ((⌊Real.logb 10 n⌋ : ℝ)) :=
        (Real.rpow_intCast 10 _).symm
    _ ≤ (10:ℝ) ^ Real.logb 10 n :=
        Real.rpow_le_rpow_of_exponent_le (le_of_lt hb) (Int.floor_le _)
    _ = n := Real.rpow_logb (by norm_num) (by norm_num) h
  · calc n = (10:ℝ) ^ Real.logb 10 n := (Real.rpow_logb (by norm_num) (by norm_num) h).symm
    _ < (10:ℝ) ^ (((⌊Real.logb 10 n⌋ + 1 : ℤ) : ℝ)) := by
        refine Real.rpow_lt_rpow_of_exponent_lt hb ?_
        push_cast
        exact Int.lt_floor_add_one _
    _ = (10:ℝ) ^ (⌊Real.logb 10 n⌋ + 1) := Real.rpow_intCast 10 _

/-- The mantissa of a positive real lies in the interval from 1 to 10. -/
theorem mantissa_bounds {n : ℝ} (h : 0 < n) :
    1 ≤ n / (10:ℝ) ^ (⌊Real.logb 10 n⌋) ∧ n / (10:ℝ) ^ (⌊Real.logb 10 n⌋) < 10 := by
  obtain ⟨h1, h2⟩ := zpow_floor_logb_le h
  have hp : (0:ℝ) < (10:ℝ) ^ (⌊Real.logb 10 n⌋) := zpow_pos (by norm_num) _
  constructor
  · rw [le_div_iff₀ hp]
    simpa using h1
  · rw [div_lt_iff₀ hp]
    calc n < (10:ℝ) ^ (⌊Real.logb 10 n⌋ + 1) := h2
    _ = (10:ℝ) ^ (⌊Real.logb 10 n⌋) * 10 := zpow_add_one₀ (by norm_num) _
    _ = 10 * (10:ℝ) ^ (⌊Real.logb 10 n⌋) := by ring

/-- The nice significand is the member of the set 1, 2, 5, 10 nearest to a
mantissa in the interval from 1 to 10 (thresholds 1.5, 3.5, 7.5). -/
theorem niceSig_nearest {m : ℝ} (h1 : 1 ≤ m) (h2 : m < 10) :
    ∀ s ∈ ({1, 2, 5, 10} : Set ℝ), |m - niceSig m| ≤ |m - s| := by
  intro s hs
  simp only [Set.mem_insert_iff, Set.mem_singleton_iff] at hs
  unfold niceSig
  by_cases c1 : m < 1.5
  · rw [if_pos c1]
    rcases hs with rfl | rfl | rfl | rfl <;>
      (rcases abs_cases (m - 1) with ⟨hg1, hg2⟩ | ⟨hg1, hg2⟩ <;> rw [hg1] <;>
        (first
          | exact le_refl _
          | (rw [abs_of_nonpos (by linarith)]; linarith)
          | (rw [abs_of_nonneg (by linarith)]; linarith)
          | linarith))
  · rw [if_neg c1]
    by_cases c2 : m < 3.5
    · rw [if_pos c2]
      rcases hs with rfl | rfl | rfl | rfl <;>
        (rcases abs_cases (m - 2) with ⟨hg1, hg2⟩ | ⟨hg1, hg2⟩ <;> rw [hg1] <;>
          (first
            | exact le_refl _
            | (rw [abs_of_nonpos (by linarith)]; linarith)
            | (rw [abs_of_nonneg (by linarith)]; linarith)
            | linarith))
    · rw [if_neg c2]
      by_cases c3 : m < 7.5
      · rw [if_pos c3]
        rcases hs with rfl | rfl | rfl | rfl <;>
          (rcases abs_cases (m - 5) with ⟨hg1, hg2⟩ | ⟨hg1, hg2⟩ <;> rw [hg1] <;>
            (first
              | exact le_refl _
              | (rw [abs_of_nonpos (by linarith)]; linarith)
              | (rw [abs_of_nonneg (by linarith)]; linarith)
              | linarith))
      · rw [if_neg c3]
        rcases hs with rfl | rfl | rfl | rfl <;>
          (rcases abs_cases (m - 10) with ⟨hg1, hg2⟩ | ⟨hg1, hg2⟩ <;> rw [hg1] <;>
            (first
              | exact le_refl _
              | (rw [abs_of_nonpos (by linarith)]; linarith)
              | (rw [abs_of_nonneg (by linarith)]; linarith)
              | linarith))

/-- roundSig on a positive input is the nice significand of the mantissa
scaled back by the power of ten. -/
theorem roundSig_pos {n : ℝ} (h : 0 < n) :
    roundSig n = niceSig (n / (10:ℝ) ^ (⌊Real.logb 10 n⌋)) * (10:ℝ) ^ (⌊Real.logb 10 n⌋) := by
  rw [roundSig, if_neg (not_le.mpr h)]
  rfl

theorem roundSig_nonpos {n : ℝ} (h : n ≤ 0) : roundSig n = 0 := by
  rw [roundSig, if_pos h]

/-! Lemmas for the quiz builders. -/

theorem jsRound_intCast (k : ℤ) : jsRound (k:ℝ) = k := by
  rw [jsRound, Int.floor_int_add]
  norm_num

theorem bumpBy_of_mem {step : ℤ → ℤ} {taken : List ℤ} {x : ℤ} (h : x ∈ taken) :
    bumpBy step taken x = bumpBy step taken (x + max 1 (step x)) := by
  rw [bumpBy]
  exact dif_pos h

theorem bumpBy_of_not_mem {step : ℤ → ℤ} {taken : List ℤ} {x : ℤ} (h : x ∉ taken) :
    bumpBy step taken x = x := by
  rw [bumpBy]
  exact dif_neg h

theorem le_foldr_max (l : List ℤ) (i x : ℤ) (h : x ∈ l) : x ≤ l.foldr max i := by
  induction l with
  | nil => cases h
  | cons a t ih =>
    rcases List.mem_cons.mp h with rfl | hmem
    · exact le_max_left _ _
    · exact le_trans (ih hmem) (le_max_right _ _)

theorem bumpBy_not_mem (step : ℤ → ℤ) (taken : List ℤ) (x : ℤ) :
    bumpBy step taken x ∉ taken := by
  generalize hm : (taken.foldr max 0 + 1 - x).toNat = n
  induction n using Nat.strong_induction_on generalizing x with
  | _ n ih =>
    by_cases h : x ∈ taken
    · rw [bumpBy_of_mem h]
      have hle : x ≤ taken.foldr max 0 := le_foldr_max taken 0 x h
      have h1 : (1:ℤ) ≤ max 1 (step x) := le_max_left _ _
      exact ih ((taken.foldr max 0 + 1 - (x + max 1 (step x))).toNat)
        (by omega) _ rfl
    · rw [bumpBy_of_not_mem h]
      exact h

theorem growUnique_cons (step : ℤ → ℤ) (f : ℝ → ℤ) (v : ℝ) (vals : List ℝ)
    (acc : List ℤ) :
    growUnique step f (v :: vals) acc
      = growUnique step f vals (acc ++ [bumpBy step acc (f v)]) := rfl

theorem growUnique_nil (step : ℤ → ℤ) (f : ℝ → ℤ) (acc : List ℤ) :
    growUnique step f [] acc = acc := rfl

theorem growUnique_length (step : ℤ → ℤ) (f : ℝ → ℤ) :
    ∀ (vals : List ℝ) (acc : List ℤ),
      (growUnique step f vals acc).length = acc.length + vals.length
  | [], acc => by simp [growUnique_nil]
  | v :: vals, acc => by
    rw [growUnique_cons, growUnique_length step f vals]
    simp
    omega

theorem growUnique_nodup (step : ℤ → ℤ) (f : ℝ → ℤ) :
    ∀ (vals : List ℝ) (acc : List ℤ), acc.Nodup → (growUnique step f vals acc).Nodup
  | [], acc, h => by simpa [growUnique_nil] using h
  | v :: vals, acc, h => by
    rw [growUnique_cons]
    refine growUnique_nodup step f vals _ ?_
    rw [List.nodup_append]
    exact ⟨h, List.nodup_singleton _, by
      intro a ha hb
      have : a = bumpBy step acc (f v) := by simpa using hb
      rw [this] at ha
      exact bumpBy_not_mem step acc (f v) ha⟩

theorem growUnique_prefix (step : ℤ → ℤ) (f : ℝ → ℤ) :
    ∀ (vals : List ℝ) (acc : List ℤ), ∃ rest, growUnique step f vals acc = acc ++ rest
  | [], acc => ⟨[], by simp [growUnique_nil]⟩
  | v :: vals, acc => by
    obtain ⟨rest, hrest⟩ := growUnique_prefix step f vals (acc ++ [bumpBy step acc (f v)])
    exact ⟨bumpBy step acc (f v) :: rest, by rw [growUnique_cons, hrest]; simp⟩

/-- The first element produced by the grow loop from an empty accumulator
is the first seed itself. -/
theorem growUnique_head (step : ℤ → ℤ) (f : ℝ → ℤ) (v : ℝ) (vals : List ℝ) :
    ∃ rest, growUnique step f (v :: vals) [] = f v :: rest := by
  rw [growUnique_cons]
  obtain ⟨rest, hrest⟩ := growUnique_prefix step f vals ([] ++ [bumpBy step [] (f v)])
  rw [hrest]
  rw [bumpBy_of_not_mem (List.not_mem_nil _)]
  exact ⟨rest, by simp⟩

theorem jsIndexOf_cons_self {α : Type} [DecidableEq α] (a : α) (l : List α) :
    jsIndexOf (a :: l) a = 0 := by
  rw [jsIndexOf, if_pos (List.mem_cons_self a l)]
  simp

/-- The shuffled answer index of a position below 4 is itself in 0..3. -/
theorem jsIndexOf_order_bounds {order : List ℕ} (hord : order.Perm [0, 1, 2, 3])
    {k : ℕ} (hk : k < 4) : 0 ≤ jsIndexOf order k ∧ jsIndexOf order k ≤ 3 := by
  have hmem : k ∈ order := by
    rw [hord.mem_iff]
    interval_cases k <;> decide
  rw [jsIndexOf, if_pos hmem]
  have hlen : order.length = 4 := by rw [hord.length_eq]; rfl
  have := List.indexOf_lt_length.mpr hmem
  omega

/-- Mapping the shuffle over a 4-element option list of pairwise distinct
strings keeps the entries pairwise distinct. -/
theorem getD_map_nodup (l : List String) (order : List ℕ) (hl : l.length = 4)
    (hord : order.Perm [0, 1, 2, 3]) (hnd : l.Nodup) :
    (order.map (fun i => l.getD i "")).Nodup := by
  have hondup : order.Nodup := hord.nodup_iff.mpr (by decide)
  refine List.Nodup.map_on ?_ hondup
  intro i hi j hj hij
  have hi4 : i < 4 := by
    have := hord.mem_iff.mp hi
    simp at this
    omega
  have hj4 : j < 4 := by
    have := hord.mem_iff.mp hj
    simp at this
    omega
  have hi' : i < l.length := by omega
  have hj' : j < l.length := by omega
  rw [List.getD_eq_getElem l "" hi', List.getD_eq_getElem l "" hj'] at hij
  have hget : l.get ⟨i, hi'⟩ = l.get ⟨j, hj'⟩ := by simpa using hij
  have := (List.Nodup.get_inj_iff hnd).mp hget
  exact congrArg Fin.val this

/-- Wrapping an injective rendering with a fixed prefix and suffix stays
injective. -/
theorem affix_inj {α : Type} (p s : String) {f : α → String}
    (hf : Function.Injective f) :
    Function.Injective (fun a => p ++ f a ++ s) := by
  intro a b h
  have hdata := congrArg String.data h
  simp only [String.data_append] at hdata
  have h1 : p.data ++ (f a).data = p.data ++ (f b).data :=
    List.append_cancel_right hdata
  have h2 : (f a).data = (f b).data := List.append_cancel_left h1
  exact hf (string_data_inj h2)

theorem dot_not_mem_renderNat (n : ℕ) : '.' ∉ (renderNat n).data := by
  intro hmem
  have h1 := renderNat_chars hmem
  have h2 : ('.').toNat = 46 := by decide
  omega

theorem dot_not_mem_renderInt (k : ℤ) : '.' ∉ (renderInt k).data := by
  intro hmem
  rw [renderInt] at hmem
  by_cases hk : k < 0
  · rw [if_pos hk] at hmem
    rw [String.data_append] at hmem
    rcases List.mem_append.mp hmem with h | h
    · have : ('.') = '-' := by simpa using h
      exact absurd this (by decide)
    · exact dot_not_mem_renderNat _ h
  · rw [if_neg hk] at hmem
    exact dot_not_mem_renderNat _ hmem

theorem dot_mem_renderTenths (k : ℤ) : '.' ∈ (renderTenths k).data := by
  rw [renderTenths]
  simp only [String.data_append]
  simp

/-- Splitting two concatenations at a separator absent from the prefixes
identifies the parts. -/
theorem append_sep_inj (c : Char) : ∀ (l1 m1 l2 m2 : List Char), c ∉ l1 → c ∉ m1 →
    l1 ++ c :: l2 = m1 ++ c :: m2 → l1 = m1 ∧ l2 = m2
  | [], [], l2, m2, _, _, h => ⟨rfl, by simpa using h⟩
  | [], b :: m1, l2, m2, h1, h2, h => by
    simp only [List.nil_append, List.cons_append, List.cons.injEq] at h
    exact absurd (by rw [h.1]; simp : c ∈ b :: m1) h2
  | a :: l1, [], l2, m2, h1, h2, h => by
    simp only [List.nil_append, List.cons_append, List.cons.injEq] at h
    exact absurd (by rw [← h.1]; simp : c ∈ a :: l1) h1
  | a :: l1, b :: m1, l2, m2, h1, h2, h => by
    simp only [List.cons_append, List.cons.injEq] at h
    obtain ⟨hl, hr⟩ := append_sep_inj c l1 m1 l2 m2
      (fun hc => h1 (by simp [hc])) (fun hc => h2 (by simp [hc])) h.2
    exact ⟨by rw [h.1, hl], hr⟩

theorem renderTenths_inj : Function.Injective renderTenths := by
  intro k m h
  have hdata := congrArg String.data h
  rw [renderTenths, renderTenths] at hdata
  simp only [String.data_append] at hdata
  have hdot : ("." : String).data = ['.'] := rfl
  by_cases hk : k < 0 <;> by_cases hm : m < 0
  · rw [if_pos hk, if_pos hm] at hdata
    have hdash : ("-" : String).data = ['-'] := rfl
    rw [hdash] at hdata
    have h1 : (renderNat (k.natAbs / 10)).data ++ ['.'] ++ (renderNat (k.natAbs % 10)).data
        = (renderNat (m.natAbs / 10)).data ++ ['.'] ++ (renderNat (m.natAbs % 10)).data := by
      have := List.append_cancel_left (by simpa [hdot] using hdata :
        ['-'] ++ ((renderNat (k.natAbs / 10)).data ++ ['.'] ++ (renderNat (k.natAbs % 10)).data)
          = ['-'] ++ ((renderNat (m.natAbs / 10)).data ++ ['.'] ++ (renderNat (m.natAbs % 10)).data))
      exact this
    have h2 := append_sep_inj '.' _ _ _ _ (dot_not_mem_renderNat _) (dot_not_mem_renderNat _)
      (by simpa [List.append_assoc] using h1)
    have hq := renderNat_inj (string_data_inj h2.1)
    have hr := renderNat_inj (string_data_inj h2.2)
    omega
  · exfalso
    rw [if_pos hk, if_neg hm] at hdata
    have hdash : ("-" : String).data = ['-'] := rfl
    rw [hdash] at hdata
    rcases hd : (renderNat (m.natAbs / 10)).data with _ | ⟨c, rest⟩
    · exact renderNat_ne_nil _ hd
    · rw [show (("" : String).data) = [] from rfl] at hdata
      rw [hd] at hdata
      have : '-' = c := ((by simpa using hdata :
        '-' = c ∧ (renderNat (k.natAbs / 10)).data ++ '.' :: (renderNat (k.natAbs % 10)).data
          = rest ++ '.' :: (renderNat (m.natAbs % 10)).data)).1
      have hc : c ∈ (renderNat (m.natAbs / 10)).data := by rw [hd]; simp
      have hb := renderNat_chars hc
      rw [← this] at hb
      have : ('-').toNat = 45 := by decide
      omega
  · exfalso
    rw [if_neg hk, if_pos hm] at hdata
    have hdash : ("-" : String).data = ['-'] := rfl
    rw [hdash] at hdata
    rcases hd : (renderNat (k.natAbs / 10)).data with _ | ⟨c, rest⟩
    · exact renderNat_ne_nil _ hd
    · rw [show (("" : String).data) = [] from rfl] at hdata
      rw [hd] at hdata
      have : c = '-' := ((by simpa using hdata :
        c = '-' ∧ rest ++ '.' :: (renderNat (k.natAbs % 10)).data
          = (renderNat (m.natAbs / 10)).data ++ '.' :: (renderNat (m.natAbs % 10)).data)).1
      have hc : c ∈ (renderNat (k.natAbs / 10)).data := by rw [hd]; simp
      have hb := renderNat_chars hc
      rw [this] at hb
      have : ('-').toNat = 45 := by decide
      omega
  · rw [if_neg hk, if_neg hm] at hdata
    have h2 := append_sep_inj '.' _ _ _ _ (dot_not_mem_renderNat _) (dot_not_mem_renderNat _)
      (by simpa [List.append_assoc] using hdata)
    have hq := renderNat_inj (string_data_inj h2.1)
    have hr := renderNat_inj (string_data_inj h2.2)
    omega

theorem jsRound_le (x : ℝ) : (jsRound x : ℝ) ≤ x + 1/2 := by
  rw [jsRound]
  exact Int.floor_le (x + 1/2)

theorem lt_jsRound (x : ℝ) : x - 1/2 < (jsRound x : ℝ) := by
  rw [jsRound]
  have := Int.lt_floor_add_one (x + 1/2)
  linarith

/-- Equal toFixed roundings of two integers divided by the same positive
denominator force the integers within one denominator of each other. -/
theorem jsRoundQ_div_eq_bound {x y d : ℤ} (hd : 0 < d)
    (h : jsRoundQ ((x:ℚ)/(d:ℚ)) = jsRoundQ ((y:ℚ)/(d:ℚ))) : y - x < d ∧ x - y < d := by
  rw [jsRoundQ, jsRoundQ] at h
  have hdq : (0:ℚ) < (d:ℚ) := by exact_mod_cast hd
  have h1 := Int.floor_le ((x:ℚ)/(d:ℚ) + 1/2)
  have h2 := Int.lt_floor_add_one ((x:ℚ)/(d:ℚ) + 1/2)
  have h3 := Int.floor_le ((y:ℚ)/(d:ℚ) + 1/2)
  have h4 := Int.lt_floor_add_one ((y:ℚ)/(d:ℚ) + 1/2)
  rw [h] at h1 h2
  have hyx : (y:ℚ)/(d:ℚ) < (x:ℚ)/(d:ℚ) + 1 := by linarith
  have hxy : (x:ℚ)/(d:ℚ) < (y:ℚ)/(d:ℚ) + 1 := by linarith
  constructor
  · rw [div_lt_iff₀ hdq] at hyx
    have h6 : ((x:ℚ)/(d:ℚ) + 1) * (d:ℚ) = (x:ℚ) + (d:ℚ) := by field_simp
    rw [h6] at hyx
    have : y < x + d := by exact_mod_cast hyx
    omega
  · rw [div_lt_iff₀ hdq] at hxy
    have h6 : ((y:ℚ)/(d:ℚ) + 1) * (d:ℚ) = (y:ℚ) + (d:ℚ) := by field_simp
    rw [h6] at hxy
    have : x < y + d := by exact_mod_cast hxy
    omega

theorem renderNat_last (n : ℕ) :
    ∃ c, (renderNat n).data.getLast? = some c ∧ 48 ≤ c.toNat ∧ c.toNat ≤ 57 := by
  have hne := renderNat_ne_nil n
  obtain ⟨h1, h2⟩ := renderNat_chars (List.getLast_mem hne)
  exact ⟨(renderNat n).data.getLast hne, List.getLast?_eq_getLast _ hne, h1, h2⟩

theorem renderInt_last (k : ℤ) :
    ∃ c, (renderInt k).data.getLast? = some c ∧ 48 ≤ c.toNat ∧ c.toNat ≤ 57 := by
  rw [renderInt]
  by_cases hk : k < 0
  · rw [if_pos hk]
    obtain ⟨c, hc, h1, h2⟩ := renderNat_last k.natAbs
    refine ⟨c, ?_, h1, h2⟩
    rw [String.data_append]
    rw [List.getLast?_append_of_ne_nil _ (renderNat_ne_nil _)]
    exact hc
  · rw [if_neg hk]
    exact renderNat_last k.natAbs

theorem renderTenths_last (k : ℤ) :
    ∃ c, (renderTenths k).data.getLast? = some c ∧ 48 ≤ c.toNat ∧ c.toNat ≤ 57 := by
  rw [renderTenths]
  obtain ⟨c, hc, h1, h2⟩ := renderNat_last (k.natAbs % 10)
  refine ⟨c, ?_, h1, h2⟩
  simp only [String.data_append]
  rw [List.getLast?_append_of_ne_nil _ (renderNat_ne_nil _)]
  exact hc

theorem fmt_small {n : ℤ} (h : n < 1000) : fmt n = renderInt n := by
  rw [fmt, if_neg (by omega), if_neg (by omega)]

theorem fmt_last_plain {n : ℤ} (h : n < 1000) :
    ∃ c, (fmt n).data.getLast? = some c ∧ 48 ≤ c.toNat ∧ c.toNat ≤ 57 := by
  rw [fmt_small h]
  exact renderInt_last n

theorem fmt_last_k {n : ℤ} (h1 : 1000 ≤ n) (h2 : n < 1000000) :
    (fmt n).data.getLast? = some 'k' := by
  rw [fmt, if_neg (by omega), if_pos h1, String.data_append]
  rw [List.getLast?_append_of_ne_nil _ (by decide : ("k" : String).data ≠ [])]
  rfl

theorem fmt_last_M {n : ℤ} (h : 1000000 ≤ n) :
    (fmt n).data.getLast? = some 'M' := by
  rw [fmt, if_pos h, String.data_append]
  rw [List.getLast?_append_of_ne_nil _ (by decide : ("M" : String).data ≠ [])]
  rfl

/-- Two distinct positive integers can only share a compact fmt label when
both are at least 1000 and within ten percent of each other. -/
theorem fmt_eq_imp {x y : ℤ} (hx : 1 ≤ x) (hxy : x < y) (h : fmt x = fmt y) :
    1000 ≤ x ∧ 10 * y < 11 * x := by
  rcases lt_or_le x 1000 with hx3 | hx3
  · exfalso
    rcases lt_or_le y 1000 with hy3 | hy3
    · rw [fmt_small hx3, fmt_small hy3] at h
      exact absurd (renderInt_inj h) (by omega)
    · obtain ⟨c, hc, h1, h2⟩ := fmt_last_plain hx3
      rcases lt_or_le y 1000000 with hy6 | hy6
      · rw [h, fmt_last_k hy3 hy6] at hc
        injection hc with hc
        rw [← hc] at h1 h2
        have hk : ('k').toNat = 107 := by decide
        omega
      · rw [h, fmt_last_M hy6] at hc
        injection hc with hc
        rw [← hc] at h1 h2
        have hk : ('M').toNat = 77 := by decide
        omega
  · refine ⟨hx3, ?_⟩
    rcases lt_or_le x 1000000 with hx6 | hx6
    · rcases lt_or_le y 1000000 with hy6 | hy6
      · have hfx : fmt x
            = (if 10000 ≤ x then toFixed0Q ((x : ℚ)/1000) else toFixed1Q ((x : ℚ)/1000)) ++ "k" := by
          rw [fmt, if_neg (by omega), if_pos hx3]
        have hfy : fmt y
            = (if 10000 ≤ y then toFixed0Q ((y : ℚ)/1000) else toFixed1Q ((y : ℚ)/1000)) ++ "k" := by
          rw [fmt, if_neg (by omega), if_pos (by omega : (1000:ℤ) ≤ y)]
        rw [hfx, hfy] at h
        have hdata := congrArg String.data h
        simp only [String.data_append] at hdata
        have hS := string_data_inj (List.append_cancel_right hdata)
        rcases lt_or_le x 10000 with hx4 | hx4
        · rcases lt_or_le y 10000 with hy4 | hy4
          · rw [if_neg (by omega), if_neg (by omega), toFixed1Q, toFixed1Q] at hS
            have heq := renderTenths_inj hS
            rw [show (10:ℚ) * ((x:ℚ)/1000) = (x:ℚ)/((100:ℤ):ℚ) from by push_cast; ring,
              show (10:ℚ) * ((y:ℚ)/1000) = (y:ℚ)/((100:ℤ):ℚ) from by push_cast; ring] at heq
            obtain ⟨hb, -⟩ := jsRoundQ_div_eq_bound (by norm_num) heq
            omega
          · exfalso
            rw [if_neg (by omega), if_pos hy4, toFixed1Q, toFixed0Q] at hS
            have hmem := dot_mem_renderTenths (jsRoundQ (10 * ((x:ℚ)/1000)))
            rw [hS] at hmem
            exact dot_not_mem_renderInt _ hmem
        · have hy4 : (10000:ℤ) ≤ y := by omega
          rw [if_pos hx4, if_pos hy4, toFixed0Q, toFixed0Q] at hS
          have heq := renderInt_inj hS
          rw [show ((x:ℚ)/1000) = (x:ℚ)/((1000:ℤ):ℚ) from by norm_num,
            show ((y:ℚ)/1000) = (y:ℚ)/((1000:ℤ):ℚ) from by norm_num] at heq
          obtain ⟨hb, -⟩ := jsRoundQ_div_eq_bound (by norm_num) heq
          omega
      · exfalso
        have hk := fmt_last_k hx3 hx6
        rw [h, fmt_last_M hy6] at hk
        injection hk with hk
        exact absurd hk (by decide)
    · have hy6 : (1000000:ℤ) ≤ y := by omega
      have hfx : fmt x
          = (if 10000000 ≤ x then toFixed0Q ((x : ℚ)/1000000)
             else toFixed1Q ((x : ℚ)/1000000)) ++ "M" := by
        rw [fmt, if_pos hx6]
      have hfy : fmt y
          = (if 10000000 ≤ y then toFixed0Q ((y : ℚ)/1000000)
             else toFixed1Q ((y : ℚ)/1000000)) ++ "M" := by
        rw [fmt, if_pos hy6]
      rw [hfx, hfy] at h
      have hdata := congrArg String.data h
      simp only [String.data_append] at hdata
      have hS := string_data_inj (List.append_cancel_right hdata)
      rcases lt_or_le x 10000000 with hx7 | hx7
      · rcases lt_or_le y 10000000 with hy7 | hy7
        · rw [if_neg (by omega), if_neg (by omega), toFixed1Q, toFixed1Q] at hS
          have heq := renderTenths_inj hS
          rw [show (10:ℚ) * ((x:ℚ)/1000000) = (x:ℚ)/((100000:ℤ):ℚ) from by push_cast; ring,
            show (10:ℚ) * ((y:ℚ)/1000000) = (y:ℚ)/((100000:ℤ):ℚ) from by push_cast; ring] at heq
          obtain ⟨hb, -⟩ := jsRoundQ_div_eq_bound (by norm_num) heq
          omega
        · exfalso
          rw [if_neg (by omega), if_pos hy7, toFixed1Q, toFixed0Q] at hS
          have hmem := dot_mem_renderTenths (jsRoundQ (10 * ((x:ℚ)/1000000)))
          rw [hS] at hmem
          exact dot_not_mem_renderInt _ hmem
      · have hy7 : (10000000:ℤ) ≤ y := by omega
        rw [if_pos hx7, if_pos hy7, toFixed0Q, toFixed0Q] at hS
        have heq := renderInt_inj hS
        rw [show ((x:ℚ)/1000000) = (x:ℚ)/((1000000:ℤ):ℚ) from by norm_num,
          show ((y:ℚ)/1000000) = (y:ℚ)/((1000000:ℤ):ℚ) from by norm_num] at heq
        obtain ⟨hb, -⟩ := jsRoundQ_div_eq_bound (by norm_num) heq
        omega

theorem prefix_cancel {p x y : String} (h : p ++ x = p ++ y) : x = y := by
  have hdata := congrArg String.data h
  simp only [String.data_append] at hdata
  exact string_data_inj (List.append_cancel_left hdata)

theorem affix_cancel (p s x y : String) (h : p ++ x ++ s = p ++ y ++ s) : x = y := by
  have hdata := congrArg String.data h
  simp only [String.data_append] at hdata
  exact string_data_inj (List.append_cancel_left (List.append_cancel_right hdata))

/-- Wrapping an injective rendering with a fixed prefix stays injective. -/
theorem prefix_inj {α : Type} (p : String) {f : α → String}
    (hf : Function.Injective f) : Function.Injective (fun a => p ++ f a) :=
  fun _ _ h => hf (prefix_cancel h)

theorem insertionDedup_go : ∀ (l acc : List ℝ), (acc ++ l).Nodup →
    l.foldl (fun acc a => if a ∈ acc then acc else acc ++ [a]) acc = acc ++ l
  | [], acc, _ => by simp
  | a :: t, acc, h => by
    have hnotmem : a ∉ acc :=
      fun hmem => (List.nodup_append.mp h).2.2 hmem (List.mem_cons_self a t)
    rw [List.foldl_cons, if_neg hnotmem,
      insertionDedup_go t (acc ++ [a]) (by rwa [List.append_cons] at h)]
    simp

/-- Array.from(new Set(l)) is l itself when l has no duplicates. -/
theorem insertionDedup_eq_self {l : List ℝ} (h : l.Nodup) : insertionDedup l = l :=
  insertionDedup_go l [] (by simpa using h)

/-- toFixed(1) re-rounding fixes a value that is already a tenth. -/
theorem toFixed1Num_tenths (k : ℤ) : toFixed1Num ((k:ℝ)/10) = (k:ℝ)/10 := by
  rw [toFixed1Num, show (10:ℝ) * ((k:ℝ)/10) = (k:ℝ) from by ring, jsRound_intCast]

theorem toFixed1Str_tenths (k : ℤ) : toFixed1Str ((k:ℝ)/10) = renderTenths k := by
  rw [toFixed1Str, show (10:ℝ) * ((k:ℝ)/10) = (k:ℝ) from by ring, jsRound_intCast]

theorem tenth_cast_inj {a b : ℤ} (h : (a:ℝ)/10 = (b:ℝ)/10) : a = b := by
  field_simp at h
  exact_mod_cast h

/-- Evaluation rule for Math.round at a concrete value. -/
theorem jsRound_eval {x : ℝ} {z : ℤ} (h1 : (z:ℝ) ≤ x + 1/2) (h2 : x + 1/2 < z + 1) :
    jsRound x = z := by
  rw [jsRound]
  exact Int.floor_eq_iff.mpr ⟨h1, h2⟩

theorem take4_quad {α : Type} (a b c d : α) : ([a, b, c, d] : List α).take 4 = [a, b, c, d] := rfl

/-- The shared structural argument for every shuffled builder: a raw
option list of four pairwise-distinct strings, shuffled by a permutation
of 0..3, with the answer re-indexed through the shuffle. -/
theorem QOk_shuffled (qs : String) (optionsRaw explanationsRaw : List String)
    (order : List ℕ) (k : ℕ) (hord : order.Perm [0, 1, 2, 3])
    (hopts : optionsRaw.length = 4) (hnodup : optionsRaw.Nodup) (hk : k < 4) :
    QOk { q := qs
          choices := order.map (fun i => optionsRaw.getD i "")
          explanations := order.map (fun i => explanationsRaw.getD i "")
          answer := jsIndexOf order k } := by
  have hlen4 : order.length = 4 := by rw [hord.length_eq]; rfl
  exact ⟨by simp [hlen4], getD_map_nodup _ order hopts hord hnodup, by simp [hlen4],
    (jsIndexOf_order_bounds hord hk).1, (jsIndexOf_order_bounds hord hk).2⟩

/-- Symmetric form of the fmt collision analysis. -/
theorem fmt_eq_sym {x y : ℤ} (hx : 1 ≤ x) (hy : 1 ≤ y) (hne : x ≠ y) (h : fmt x = fmt y) :
    (x < y ∧ 1000 ≤ x ∧ 10*y < 11*x) ∨ (y < x ∧ 1000 ≤ y ∧ 10*x < 11*y) := by
  rcases lt_or_gt_of_ne hne with hlt | hgt
  · obtain ⟨h1, h2⟩ := fmt_eq_imp hx hlt h
    exact Or.inl ⟨hlt, h1, h2⟩
  · obtain ⟨h1, h2⟩ := fmt_eq_imp hy hgt h.symm
    exact Or.inr ⟨hgt, h1, h2⟩

theorem fmt_inj_small {a b : ℤ} (ha : a < 1000) (hb : b < 1000) (h : fmt a = fmt b) :
    a = b := by
  rw [fmt_small ha, fmt_small hb] at h
  exact renderInt_inj h

/-- The casualty option labels are pairwise distinct whenever fmt does not
collide on the underlying integers. -/
theorem casualty_options_nodup {arr : List ℤ} (hnd : arr.Nodup)
    (hinj : ∀ a ∈ arr, ∀ b ∈ arr, fmt a = fmt b → a = b) :
    (arr.map (fun n => "~" ++ fmt n ++ " people")).Nodup := by
  refine List.Nodup.map_on ?_ hnd
  intro a ha b hb h
  exact hinj a ha b hb (affix_cancel "~" " people" (fmt a) (fmt b) h)

theorem r45_bounds (c : ℤ) :
    9*c - 10 < 20 * jsRound ((c:ℝ) * 0.45) ∧ 20 * jsRound ((c:ℝ) * 0.45) ≤ 9*c + 10 := by
  have h1 := jsRound_le ((c:ℝ) * 0.45)
  have h2 := lt_jsRound ((c:ℝ) * 0.45)
  constructor
  · have h3 : (9*(c:ℝ) - 10) < 20 * (jsRound ((c:ℝ) * 0.45) : ℝ) := by linarith
    exact_mod_cast h3
  · have h3 : 20 * (jsRound ((c:ℝ) * 0.45) : ℝ) ≤ 9*(c:ℝ) + 10 := by linarith
    exact_mod_cast h3

theorem r75_bounds (c : ℤ) :
    3*c - 2 < 4 * jsRound ((c:ℝ) * 0.75) ∧ 4 * jsRound ((c:ℝ) * 0.75) ≤ 3*c + 2 := by
  have h1 := jsRound_le ((c:ℝ) * 0.75)
  have h2 := lt_jsRound ((c:ℝ) * 0.75)
  constructor
  · have h3 : (3*(c:ℝ) - 2) < 4 * (jsRound ((c:ℝ) * 0.75) : ℝ) := by linarith
    exact_mod_cast h3
  · have h3 : 4 * (jsRound ((c:ℝ) * 0.75) : ℝ) ≤ 3*(c:ℝ) + 2 := by linarith
    exact_mod_cast h3

theorem r160_bounds (c : ℤ) :
    16*c - 5 < 10 * jsRound ((c:ℝ) * 1.6) ∧ 10 * jsRound ((c:ℝ) * 1.6) ≤ 16*c + 5 := by
  have h1 := jsRound_le ((c:ℝ) * 1.6)
  have h2 := lt_jsRound ((c:ℝ) * 1.6)
  constructor
  · have h3 : (16*(c:ℝ) - 5) < 10 * (jsRound ((c:ℝ) * 1.6) : ℝ) := by linarith
    exact_mod_cast h3
  · have h3 : 10 * (jsRound ((c:ℝ) * 1.6) : ℝ) ≤ 16*(c:ℝ) + 5 := by linarith
    exact_mod_cast h3

theorem max0_energyClassIdx_bounds (e : ℝ) :
    0 ≤ max 0 (energyClassIdx e) ∧ max 0 (energyClassIdx e) ≤ 3 := by
  refine ⟨le_max_left _ _, ?_⟩
  have h : energyClassIdx e = 0 ∨ energyClassIdx e = 1 ∨ energyClassIdx e = 2
      ∨ energyClassIdx e = 3 ∨ energyClassIdx e = -1 := by
    unfold energyClassIdx
    split_ifs <;> simp
  rcases h with h|h|h|h|h <;> rw [h] <;> decide

/-- The collision step is zero for small candidates. -/
theorem uiStep_small {x : ℤ} (h1 : -16 ≤ x) (h2 : x ≤ 16) : uiStep x = 0 := by
  have hx1 : (-16:ℝ) ≤ (x:ℝ) := by exact_mod_cast h1
  have hx2 : (x:ℝ) ≤ 16 := by exact_mod_cast h2
  rw [uiStep]
  refine jsRound_eval ?_ ?_
  · push_cast
    linarith
  · push_cast
    linarith

/-- For a rounded casualty count of at least 3 the four seeded option
values are already distinct, so the collision loop never fires: the raw
option list is [c, round(0.45c), round(0.75c), round(1.6c)], it has no
duplicates, and fmt does not collide on it. -/
theorem casualtyArr_ge3 (c r45 r75 r160 : ℤ) (hc : 3 ≤ c)
    (h45 : r45 = jsRound ((c:ℝ) * 0.45)) (h75 : r75 = jsRound ((c:ℝ) * 0.75))
    (h160 : r160 = jsRound ((c:ℝ) * 1.6)) :
    uniqInts [(c:ℝ), (c:ℝ) * 0.45, (c:ℝ) * 0.75, (c:ℝ) * 1.6] = [c, r45, r75, r160]
      ∧ ([c, r45, r75, r160] : List ℤ).Nodup
      ∧ (∀ a ∈ ([c, r45, r75, r160] : List ℤ), ∀ b ∈ ([c, r45, r75, r160] : List ℤ),
          fmt a = fmt b → a = b) := by
  obtain ⟨hb45l, hb45r⟩ := r45_bounds c
  obtain ⟨hb75l, hb75r⟩ := r75_bounds c
  obtain ⟨hb160l, hb160r⟩ := r160_bounds c
  rw [← h45] at hb45l hb45r
  rw [← h75] at hb75l hb75r
  rw [← h160] at hb160l hb160r
  refine ⟨?_, ?_, ?_⟩
  · have e0 : bumpBy uiStep [] (max 1 (jsRound (c:ℝ))) = c := by
      rw [bumpBy_of_not_mem (List.not_mem_nil _), jsRound_intCast]
      omega
    have e1 : bumpBy uiStep [c] (max 1 (jsRound ((c:ℝ) * 0.45))) = r45 := by
      rw [← h45, show max 1 r45 = r45 from by omega,
        bumpBy_of_not_mem (show r45 ∉ [c] from by intro hm; simp at hm; omega)]
    have e2 : bumpBy uiStep [c, r45] (max 1 (jsRound ((c:ℝ) * 0.75))) = r75 := by
      rw [← h75, show max 1 r75 = r75 from by omega,
        bumpBy_of_not_mem (show r75 ∉ [c, r45] from by intro hm; simp at hm; omega)]
    have e3 : bumpBy uiStep [c, r45, r75] (max 1 (jsRound ((c:ℝ) * 1.6))) = r160 := by
      rw [← h160, show max 1 r160 = r160 from by omega,
        bumpBy_of_not_mem (show r160 ∉ [c, r45, r75] from by intro hm; simp at hm; omega)]
    simp only [uniqInts, growUnique_cons, growUnique_nil, List.nil_append, e0, e1, e2, e3,
      List.cons_append, List.singleton_append, List.append_nil, List.nil_append]
  · simp only [List.nodup_cons, List.mem_cons, List.not_mem_nil, or_false, List.nodup_nil,
      not_false_eq_true, and_true]
    refine ⟨?_, ?_, ?_⟩ <;> omega
  · intro a ha b hb hf
    simp only [List.mem_cons, List.not_mem_nil, or_false] at ha hb
    rcases ha with rfl|rfl|rfl|rfl <;> rcases hb with rfl|rfl|rfl|rfl <;>
      first
        | rfl
        | (by_contra hne
           rcases fmt_eq_sym (by omega) (by omega) hne hf with ⟨hA, hB, hC⟩|⟨hA, hB, hC⟩ <;>
             omega)

/-- The concrete option values for a rounded casualty count of 1. -/
theorem casualtyArr_one :
    uniqInts [((1:ℤ):ℝ), ((1:ℤ):ℝ) * 0.45, ((1:ℤ):ℝ) * 0.75, ((1:ℤ):ℝ) * 1.6]
      = [1, 2, 3, 4] := by
  have j1 : jsRound ((1:ℤ):ℝ) = 1 := jsRound_intCast 1
  have j045 : jsRound (((1:ℤ):ℝ) * 0.45) = 0 := jsRound_eval (by norm_num) (by norm_num)
  have j075 : jsRound (((1:ℤ):ℝ) * 0.75) = 1 := jsRound_eval (by norm_num) (by norm_num)
  have j16 : jsRound (((1:ℤ):ℝ) * 1.6) = 2 := jsRound_eval (by norm_num) (by norm_num)
  have u1 : uiStep 1 = 0 := uiStep_small (by omega) (by omega)
  have u2 : uiStep 2 = 0 := uiStep_small (by omega) (by omega)
  have u3 : uiStep 3 = 0 := uiStep_small (by omega) (by omega)
  have b0 : bumpBy uiStep [] (max 1 (jsRound ((1:ℤ):ℝ))) = 1 := by
    rw [j1, bumpBy_of_not_mem (List.not_mem_nil _)]
    decide
  have b1 : bumpBy uiStep [1] (max 1 (jsRound (((1:ℤ):ℝ) * 0.45))) = 2 := by
    rw [j045, show max (1:ℤ) 0 = 1 from by decide,
      bumpBy_of_mem (show (1:ℤ) ∈ [1] from by simp), u1,
      show (1:ℤ) + max 1 0 = 2 from by decide,
      bumpBy_of_not_mem (show (2:ℤ) ∉ [1] from by decide)]
  have b2 : bumpBy uiStep [1, 2] (max 1 (jsRound (((1:ℤ):ℝ) * 0.75))) = 3 := by
    rw [j075, show max (1:ℤ) 1 = 1 from by decide,
      bumpBy_of_mem (show (1:ℤ) ∈ [1, 2] from by simp), u1,
      show (1:ℤ) + max 1 0 = 2 from by decide,
      bumpBy_of_mem (show (2:ℤ) ∈ [1, 2] from by simp), u2,
      show (2:ℤ) + max 1 0 = 3 from by decide,
      bumpBy_of_not_mem (show (3:ℤ) ∉ [1, 2] from by decide)]
  have b3 : bumpBy uiStep [1, 2, 3] (max 1 (jsRound (((1:ℤ):ℝ) * 1.6))) = 4 := by
    rw [j16, show max (1:ℤ) 2 = 2 from by decide,
      bumpBy_of_mem (show (2:ℤ) ∈ [1, 2, 3] from by simp), u2,
      show (2:ℤ) + max 1 0 = 3 from by decide,
      bumpBy_of_mem (show (3:ℤ) ∈ [1, 2, 3] from by simp), u3,
      show (3:ℤ) + max 1 0 = 4 from by decide,
      bumpBy_of_not_mem (show (4:ℤ) ∉ [1, 2, 3] from by decide)]
  simp only [uniqInts, growUnique_cons, growUnique_nil, List.nil_append, b0, b1, b2, b3,
    List.cons_append, List.singleton_append, List.append_nil]

/-- The concrete option values for a rounded casualty count of 2. -/
theorem casualtyArr_two :
    uniqInts [((2:ℤ):ℝ), ((2:ℤ):ℝ) * 0.45, ((2:ℤ):ℝ) * 0.75, ((2:ℤ):ℝ) * 1.6]
      = [2, 1, 3, 4] := by
  have j2 : jsRound ((2:ℤ):ℝ) = 2 := jsRound_intCast 2
  have j09 : jsRound (((2:ℤ):ℝ) * 0.45) = 1 := jsRound_eval (by norm_num) (by norm_num)
  have j15 : jsRound (((2:ℤ):ℝ) * 0.75) = 2 := jsRound_eval (by norm_num) (by norm_num)
  have j32 : jsRound (((2:ℤ):ℝ) * 1.6) = 3 := jsRound_eval (by norm_num) (by norm_num)
  have u2 : uiStep 2 = 0 := uiStep_small (by omega) (by omega)
  have u3 : uiStep 3 = 0 := uiStep_small (by omega) (by omega)
  have b0 : bumpBy uiStep [] (max 1 (jsRound ((2:ℤ):ℝ))) = 2 := by
    rw [j2, bumpBy_of_not_mem (List.not_mem_nil _)]
    decide
  have b1 : bumpBy uiStep [2] (max 1 (jsRound (((2:ℤ):ℝ) * 0.45))) = 1 := by
    rw [j09, show max (1:ℤ) 1 = 1 from by decide,
      bumpBy_of_not_mem (show (1:ℤ) ∉ [2] from by decide)]
  have b2 : bumpBy uiStep [2, 1] (max 1 (jsRound (((2:ℤ):ℝ) * 0.75))) = 3 := by
    rw [j15, show max (1:ℤ) 2 = 2 from by decide,
      bumpBy_of_mem (show (2:ℤ) ∈ [2, 1] from by simp), u2,
      show (2:ℤ) + max 1 0 = 3 from by decide,
      bumpBy_of_not_mem (show (3:ℤ) ∉ [2, 1] from by decide)]
  have b3 : bumpBy uiStep [2, 1, 3] (max 1 (jsRound (((2:ℤ):ℝ) * 1.6))) = 4 := by
    rw [j32, show max (1:ℤ) 3 = 3 from by decide,
      bumpBy_of_mem (show (3:ℤ) ∈ [2, 1, 3] from by simp), u3,
      show (3:ℤ) + max 1 0 = 4 from by decide,
      bumpBy_of_not_mem (show (4:ℤ) ∉ [2, 1, 3] from by decide)]
  simp only [uniqInts, growUnique_cons, growUnique_nil, List.nil_append, b0, b1, b2, b3,
    List.cons_append, List.singleton_append, List.append_nil]

/-- The head and shape of the uniqInts output on a four-value seed list. -/
theorem uniqInts_head_shape (a b c d : ℝ) :
    ∃ v rest, uniqInts [a, b, c, d] = v :: rest ∧ (v :: rest).length = 4
      ∧ (v :: rest).Nodup := by
  obtain ⟨rest, hrest⟩ := growUnique_head uiStep (fun v => max 1 (jsRound v)) a [b, c, d]
  have hrest' : uniqInts [a, b, c, d] = max 1 (jsRound a) :: rest := hrest
  refine ⟨max 1 (jsRound a), rest, hrest', ?_, ?_⟩
  · have hl := growUnique_length uiStep (fun v => max 1 (jsRound v)) [a, b, c, d] []
    rw [show growUnique uiStep (fun v => max 1 (jsRound v)) [a, b, c, d] ([] : List ℤ)
        = uniqInts [a, b, c, d] from rfl, hrest'] at hl
    simpa using hl
  · have hn := growUnique_nodup uiStep (fun v => max 1 (jsRound v)) [a, b, c, d] []
      List.nodup_nil
    rw [show growUnique uiStep (fun v => max 1 (jsRound v)) [a, b, c, d] ([] : List ℤ)
        = uniqInts [a, b, c, d] from rfl, hrest'] at hn
    exact hn

/-- buildThermalQuestion is structurally well-formed for every energy and
every shuffle. -/
theorem thermal_QOk (e : ℝ) (order : List ℕ) (hord : order.Perm [0, 1, 2, 3]) :
    QOk (buildThermalQuestion e order) := by
  obtain ⟨v, rest, hrest, hlen, hnd⟩ := uniqInts_head_shape
    (clamp (3.0 * jsCbrt (max e 0)) 1 200)
    (clamp (3.0 * jsCbrt (max e 0)) 1 200 * 0.55)
    (clamp (3.0 * jsCbrt (max e 0)) 1 200 * 0.8)
    (clamp (3.0 * jsCbrt (max e 0)) 1 200 * 1.6)
  simp only [buildThermalQuestion]
  rw [hrest, List.getD_cons_zero, jsIndexOf_cons_self, Int.toNat_zero]
  refine QOk_shuffled _ _ _ order 0 hord ?_ ?_ (by norm_num)
  · simpa using hlen
  · exact List.Nodup.map
      (affix_inj "~" " km radius for severe thermal burns" renderInt_inj) hnd

/-- buildSeismicQuestion is structurally well-formed: the four candidate
magnitudes are distinct tenths, so the random padding never runs. -/
theorem seismic_QOk (e : ℝ) (order : List ℕ) (fill : List ℝ)
    (hord : order.Perm [0, 1, 2, 3]) : QOk (buildSeismicQuestion e order fill) := by
  simp only [buildSeismicQuestion]
  set k := jsRound (10 * (4 + Real.logb 10 (max e 1e-6))) with hk
  have hcen : toFixed1Num (4 + Real.logb 10 (max e 1e-6)) = (k:ℝ)/10 := by
    rw [hk]
    rfl
  rw [hcen]
  have e6 : (k:ℝ)/10 - 0.6 = ((k - 6 : ℤ):ℝ)/10 := by push_cast; ring
  have e4 : (k:ℝ)/10 + 0.4 = ((k + 4 : ℤ):ℝ)/10 := by push_cast; ring
  have e2 : (k:ℝ)/10 - 0.2 = ((k - 2 : ℤ):ℝ)/10 := by push_cast; ring
  rw [e6, e4, e2]
  simp only [List.map_cons, List.map_nil, toFixed1Num_tenths]
  have hnodup : ([(k:ℝ)/10, ((k - 6 : ℤ):ℝ)/10, ((k + 4 : ℤ):ℝ)/10,
      ((k - 2 : ℤ):ℝ)/10]).Nodup := by
    simp only [List.nodup_cons, List.mem_cons, List.not_mem_nil, or_false,
      not_false_eq_true, and_true, List.nodup_nil]
    refine ⟨?_, ?_, ?_⟩
    · rintro (h | h | h) <;> exact absurd (tenth_cast_inj h) (by omega)
    · rintro (h | h) <;> exact absurd (tenth_cast_inj h) (by omega)
    · intro h
      have := tenth_cast_inj h
      omega
  rw [insertionDedup_eq_self hnodup]
  have htake : (List.map toFixed1Num fill).take
      (4 - ([(k:ℝ)/10, ((k - 6 : ℤ):ℝ)/10, ((k + 4 : ℤ):ℝ)/10,
        ((k - 2 : ℤ):ℝ)/10]).length) = [] := by
    simp
  rw [htake, List.append_nil, List.getD_cons_zero, jsIndexOf_cons_self, Int.toNat_zero]
  simp only [List.map_cons, List.map_nil, toFixed1Str_tenths]
  refine QOk_shuffled _ _ _ order 0 hord rfl ?_ (by norm_num)
  simp only [List.nodup_cons, List.mem_cons, List.not_mem_nil, or_false,
    not_false_eq_true, and_true, List.nodup_nil]
  refine ⟨?_, ?_, ?_⟩
  · rintro (h | h | h) <;> exact absurd (renderTenths_inj (prefix_cancel h)) (by omega)
  · rintro (h | h) <;> exact absurd (renderTenths_inj (prefix_cancel h)) (by omega)
  · intro h
    have := renderTenths_inj (prefix_cancel h)
    omega

/-- buildEnergyClassQuestion is structurally well-formed (it applies no
shuffle). -/
theorem energyClass_QOk (e : ℝ) : QOk (buildEnergyClassQuestion e) := by
  obtain ⟨hA, hB⟩ := max0_energyClassIdx_bounds e
  refine ⟨rfl, ?_, rfl, hA, hB⟩
  show (["City-killer (< 1 Mt)", "Regional (1–100 Mt)",
    "Continental (100–1000 Mt)", "Global (> 1000 Mt)"] : List String).Nodup
  decide

/-- buildCasualtyQuestion is structurally well-formed for every input and
every shuffle; in particular the compact fmt labels of the four option
values never coincide. -/
theorem casualty_QOk (casualties areaKm2 fatalityRate : ℝ) (density : DensityAssessment)
    (order : List ℕ) (hord : order.Perm [0, 1, 2, 3]) :
    QOk (buildCasualtyQuestion casualties areaKm2 fatalityRate density order) := by
  by_cases hc0 : casualties ≤ 0
  · simp only [buildCasualtyQuestion, if_pos hc0]
    exact ⟨rfl, by decide, rfl, by norm_num, by norm_num⟩
  · simp only [buildCasualtyQuestion, if_neg hc0]
    set cI := max 1 (jsRound casualties) with hcI
    have hc1 : 1 ≤ cI := le_max_left _ _
    have hsplit : cI = 1 ∨ cI = 2 ∨ 3 ≤ cI := by omega
    rcases hsplit with h1 | h2 | h3
    · rw [h1, casualtyArr_one, take4_quad, jsIndexOf_cons_self, Int.toNat_zero]
      exact QOk_shuffled _ _ _ order 0 hord (by simp) (casualty_options_nodup (by decide)
        (fun a ha b hb h => fmt_inj_small (by simp at ha; omega) (by simp at hb; omega) h))
        (by norm_num)
    · rw [h2, casualtyArr_two, take4_quad, jsIndexOf_cons_self, Int.toNat_zero]
      exact QOk_shuffled _ _ _ order 0 hord (by simp) (casualty_options_nodup (by decide)
        (fun a ha b hb h => fmt_inj_small (by simp at ha; omega) (by simp at hb; omega) h))
        (by norm_num)
    · obtain ⟨harr, hnd, hinj⟩ := casualtyArr_ge3 cI (jsRound ((cI:ℝ) * 0.45))
        (jsRound ((cI:ℝ) * 0.75)) (jsRound ((cI:ℝ) * 1.6)) h3 rfl rfl rfl
      rw [harr, take4_quad, jsIndexOf_cons_self, Int.toNat_zero]
      exact QOk_shuffled _ _ _ order 0 hord (by simp) (casualty_options_nodup hnd hinj)
        (by norm_num)

/-- The risk-only tsunami branch with an indeterminate risk meets the
four-option shape (with the fixed option list of that branch). -/
theorem tsunamiRiskOnly_unable_QOk (a : TsunamiAssessment) (hr : a.risk = .unable) :
    QOk (buildTsunamiRiskOnly a) := by
  simp only [buildTsunamiRiskOnly, if_pos hr]
  refine ⟨rfl, ?_, rfl, by norm_num, by norm_num⟩
  show (["Unable to determine", "LOW", "MODERATE", "HIGH"] : List String).Nodup
  decide

/-- The risk-only tsunami branch with a determinate risk produces five
pairwise-distinct choices and an answer index in 0..4. -/
theorem tsunamiRiskOnly_det_QOk5 (a : TsunamiAssessment) (hr : a.risk ≠ .unable) :
    QOk5 (buildTsunamiRiskOnly a) := by
  simp only [buildTsunamiRiskOnly, if_neg hr]
  refine ⟨rfl, ?_, rfl, le_max_left _ _, ?_⟩
  · show (List.map renderRisk tsunamiLevels).Nodup
    decide
  have hj : jsIndexOf tsunamiLevels a.risk ≤ 4 := by
    cases h : a.risk <;> decide
  exact max_le (by norm_num) hj

/-- The wave-height tsunami branch (coastal wave at least one metre) is
structurally well-formed. -/
theorem tsunami_height_QOk (a : TsunamiAssessment) (w : ℝ) (hw : a.waveCoastM = some w)
    (hw1 : 1 ≤ w) (order : List ℕ) (hord : order.Perm [0, 1, 2, 3]) :
    QOk (buildTsunamiQuestion a order) := by
  simp only [buildTsunamiQuestion, hw, if_neg (not_lt.mpr hw1)]
  set t := clampH w with ht
  have htb : 1 ≤ t ∧ t ≤ 200 := by
    rw [ht, clampH]
    omega
  obtain ⟨rest, hrest⟩ := growUnique_head (fun _ => 1) clampH ((t:ℤ):ℝ)
    [((t:ℤ):ℝ) * 0.55, ((t:ℤ):ℝ) * 0.8, ((t:ℤ):ℝ) * 1.6]
  have hhead : clampH ((t:ℤ):ℝ) = t := by
    rw [clampH, jsRound_intCast]
    omega
  have hrest' : growUnique (fun _ => 1) clampH
      [((t:ℤ):ℝ), ((t:ℤ):ℝ) * 0.55, ((t:ℤ):ℝ) * 0.8, ((t:ℤ):ℝ) * 1.6] ([] : List ℤ)
      = t :: rest := by
    rw [hrest, hhead]
  rw [hrest', jsIndexOf_cons_self, Int.toNat_zero]
  refine QOk_shuffled _ _ _ order 0 hord ?_ ?_ (by norm_num)
  · have hl := growUnique_length (fun _ => 1) clampH
      [((t:ℤ):ℝ), ((t:ℤ):ℝ) * 0.55, ((t:ℤ):ℝ) * 0.8, ((t:ℤ):ℝ) * 1.6] []
    rw [hrest'] at hl
    simpa using hl
  · have hn := growUnique_nodup (fun _ => 1) clampH
      [((t:ℤ):ℝ), ((t:ℤ):ℝ) * 0.55, ((t:ℤ):ℝ) * 0.8, ((t:ℤ):ℝ) * 1.6] [] List.nodup_nil
    rw [hrest'] at hn
    exact List.Nodup.map
      (affix_inj (renderRisk a.risk ++ " risk with ~") " m coastal waves" renderInt_inj) hn

/-! ## Claim theorems -/

/-- C1: for all finite non-negative inputs the energy computation returns
energyMtTNT = (0.5 * (density * (4/3) * pi * (size/2)^3) * (speed*1000)^2)
/ 4.184e15, and the effect radii derived from that energy E are exactly
blastKm = 80 + 5E, seismicKm = 40 + 2E, tsunamiKm = 120 + 6E and
craterKm = 1.2 * E^(1/3), with these exact coefficients. -/
theorem C1_energy_and_radii (size density speed : ℝ)
    (hs : 0 ≤ size) (hd : 0 ≤ density) (hv : 0 ≤ speed) :
    estimateEnergyMtTNT size density speed = specEnergyMtTNT size density speed ∧
    (recalcHazards size speed density).blastKm
      = 80 + 5 * estimateEnergyMtTNT size density speed ∧
    (recalcHazards size speed density).seismicKm
      = 40 + 2 * estimateEnergyMtTNT size density speed ∧
    (recalcHazards size speed density).tsunamiKm
      = 120 + 6 * estimateEnergyMtTNT size density speed ∧
    (recalcHazards size speed density).craterKm
      = 1.2 * (estimateEnergyMtTNT size density speed) ^ ((1:ℝ)/3) := by
  have hE : 0 ≤ estimateEnergyMtTNT size density speed := by
    rw [estimateEnergy_eq_spec]; exact specEnergy_nonneg hs hd hv
  refine ⟨estimateEnergy_eq_spec size density speed, by simp [recalcHazards]; ring,
    by simp [recalcHazards]; ring, by simp [recalcHazards]; ring, ?_⟩
  simp only [recalcHazards]
  rw [jsCbrt_of_nonneg hE]
  ring

/-- C9 counterexample: at size = 120 m, speed = 18 km/s, density = 3000 the
stated formula yields an energy above 100 Mt and a blast radius above 600 km,
far from the approximately 0.088 Mt and 80.44 km asserted by the claim. -/
theorem C9_counterexample :
    100 < (recalcHazards 120 18 3000).energyTNT ∧
    600 < (recalcHazards 120 18 3000).blastKm := by
  have hE : estimateEnergyMtTNT 120 3000 18 = 17496/523 * Real.pi := by
    simp only [estimateEnergyMtTNT]; ring
  have hp := Real.pi_gt_d6
  constructor
  · simp only [recalcHazards, hE]; nlinarith
  · simp only [recalcHazards, hE]; nlinarith

/-- C9 amended: for size = 120 m, speed = 18 km/s, density = 3000 kg per
cubic meter the code computes energyMtTNT of about 105.096 Mt (not 0.088),
blastKm of about 605.48, seismicKm of about 250.192, tsunamiKm of about
750.577 and craterKm = 1.2 times the cube root of E, about 5.663. -/
theorem C9_scenario_a_actual :
    (105.096 < (recalcHazards 120 18 3000).energyTNT ∧
      (recalcHazards 120 18 3000).energyTNT < 105.097) ∧
    (605.48 < (recalcHazards 120 18 3000).blastKm ∧
      (recalcHazards 120 18 3000).blastKm < 605.481) ∧
    (250.192 < (recalcHazards 120 18 3000).seismicKm ∧
      (recalcHazards 120 18 3000).seismicKm < 250.193) ∧
    (750.577 < (recalcHazards 120 18 3000).tsunamiKm ∧
      (recalcHazards 120 18 3000).tsunamiKm < 750.578) ∧
    (5.662 < (recalcHazards 120 18 3000).craterKm ∧
      (recalcHazards 120 18 3000).craterKm < 5.664) := by
  have hE : estimateEnergyMtTNT 120 3000 18 = 17496/523 * Real.pi := by
    simp only [estimateEnergyMtTNT]; ring
  have hlo := Real.pi_gt_d20
  have hhi := Real.pi_lt_d20
  have hEnn : 0 ≤ estimateEnergyMtTNT 120 3000 18 := by
    rw [hE]; positivity
  have hcb_lo : (4.719:ℝ) < (estimateEnergyMtTNT 120 3000 18) ^ ((1:ℝ)/3) := by
    refine lt_rpow_third hEnn ?_
    rw [hE]; nlinarith
  have hcb_hi : (estimateEnergyMtTNT 120 3000 18) ^ ((1:ℝ)/3) < 4.7195 := by
    refine rpow_third_lt hEnn (by norm_num) ?_
    rw [hE]; nlinarith
  have hcr : (recalcHazards 120 18 3000).craterKm
      = (estimateEnergyMtTNT 120 3000 18) ^ ((1:ℝ)/3) * 1.2 := by
    simp only [recalcHazards]
    rw [jsCbrt_of_nonneg hEnn]
  refine ⟨⟨?_, ?_⟩, ⟨?_, ?_⟩, ⟨?_, ?_⟩, ⟨?_, ?_⟩, ⟨?_, ?_⟩⟩ <;>
    first
      | (rw [hcr]; nlinarith)
      | (simp only [recalcHazards, hE]; nlinarith)

/-- C3 counterexample: a negative size is not treated as a zero
contribution; with size = -200 m the energy, the blast radius and the
crater diameter all come out strictly negative. -/
theorem C3_counterexample :
    estimateEnergyMtTNT (-200) 3000 18 < 0 ∧
    (recalcHazards (-200) 18 3000).blastKm < 0 ∧
    (recalcHazards (-200) 18 3000).craterKm < 0 := by
  have hE : estimateEnergyMtTNT (-200) 3000 18 = -(81000/523 * Real.pi) := by
    simp only [estimateEnergyMtTNT]; ring
  have hp := Real.pi_gt_three
  have hEneg : estimateEnergyMtTNT (-200) 3000 18 < 0 := by rw [hE]; nlinarith
  refine ⟨hEneg, ?_, ?_⟩
  · simp only [recalcHazards, hE]; nlinarith
  · simp only [recalcHazards, jsCbrt, if_pos hEneg]
    have : 0 < (-(estimateEnergyMtTNT (-200) 3000 18)) ^ ((1:ℝ)/3) :=
      Real.rpow_pos_of_pos (by linarith) _
    nlinarith

/-- C3 amended: the energy computation performs no input validation and
never treats a violating input as a zero contribution (a negative size
propagates and produces negative energy and radii, see the
counterexample); the computation is total, and whenever all inputs are
non-negative the outputs are structurally valid: the energy is
non-negative and every radius is at least its constant offset.  (The
condition is sufficient, not necessary: speed enters the formula
squared.) -/
theorem C3_nonneg_inputs_valid (size density speed : ℝ)
    (hs : 0 ≤ size) (hd : 0 ≤ density) (hv : 0 ≤ speed) :
    0 ≤ estimateEnergyMtTNT size density speed ∧
    80 ≤ (recalcHazards size speed density).blastKm ∧
    40 ≤ (recalcHazards size speed density).seismicKm ∧
    120 ≤ (recalcHazards size speed density).tsunamiKm ∧
    0 ≤ (recalcHazards size speed density).craterKm := by
  have hE : 0 ≤ estimateEnergyMtTNT size density speed := by
    rw [estimateEnergy_eq_spec]; exact specEnergy_nonneg hs hd hv
  refine ⟨hE, ?_, ?_, ?_, ?_⟩
  · simp only [recalcHazards]; nlinarith
  · simp only [recalcHazards]; nlinarith
  · simp only [recalcHazards]; nlinarith
  · simp only [recalcHazards]
    have := jsCbrt_nonneg hE
    nlinarith

/-- Witness for C3 amended at size 10, density 2500, speed 20. -/
theorem C3_nonneg_inputs_valid_witness :
    (0:ℝ) ≤ 10 ∧ (0:ℝ) ≤ 2500 ∧ (0:ℝ) ≤ 20 ∧
    (0 ≤ estimateEnergyMtTNT 10 2500 20 ∧
      80 ≤ (recalcHazards 10 20 2500).blastKm ∧
      40 ≤ (recalcHazards 10 20 2500).seismicKm ∧
      120 ≤ (recalcHazards 10 20 2500).tsunamiKm ∧
      0 ≤ (recalcHazards 10 20 2500).craterKm) :=
  ⟨by norm_num, by norm_num, by norm_num,
    C3_nonneg_inputs_valid 10 2500 20 (by norm_num) (by norm_num) (by norm_num)⟩

/-- Witness for C1 at size 2, density 3, speed 5. -/
theorem C1_energy_and_radii_witness :
    (0:ℝ) ≤ 2 ∧ (0:ℝ) ≤ 3 ∧ (0:ℝ) ≤ 5 ∧
    (estimateEnergyMtTNT 2 3 5 = specEnergyMtTNT 2 3 5 ∧
      (recalcHazards 2 5 3).blastKm = 80 + 5 * estimateEnergyMtTNT 2 3 5 ∧
      (recalcHazards 2 5 3).seismicKm = 40 + 2 * estimateEnergyMtTNT 2 3 5 ∧
      (recalcHazards 2 5 3).tsunamiKm = 120 + 6 * estimateEnergyMtTNT 2 3 5 ∧
      (recalcHazards 2 5 3).craterKm = 1.2 * (estimateEnergyMtTNT 2 3 5) ^ ((1:ℝ)/3)) :=
  ⟨by norm_num, by norm_num, by norm_num,
    C1_energy_and_radii 2 3 5 (by norm_num) (by norm_num) (by norm_num)⟩


/-- C5 counterexample: with all three hazard radii equal to 0 and the
target at the impact point, the distance (0) is at least every outer
radius, yet the kill probability is 1 and the dominant hazard is blast,
because the falloff degenerates to a step function when the outer radius
does not exceed the inner radius max(1, 0.45 R). -/
theorem C5_counterexample :
    haversineKm 0 0 0 0 ≥ (⟨0, 0, 0, 0, 0, Option.none, Option.none, Option.none⟩ :
        HazardInputs).blastKm ∧
    haversineKm 0 0 0 0 ≥ (⟨0, 0, 0, 0, 0, Option.none, Option.none, Option.none⟩ :
        HazardInputs).seismicKm ∧
    haversineKm 0 0 0 0 ≥ (⟨0, 0, 0, 0, 0, Option.none, Option.none, Option.none⟩ :
        HazardInputs).tsunamiKm ∧
    (assessLethality ⟨0, 0, 0, 0, 0, Option.none, Option.none, Option.none⟩ 0 0).killProbability
      = 1 ∧
    (assessLethality ⟨0, 0, 0, 0, 0, Option.none, Option.none, Option.none⟩ 0 0).dominantHazard
      = .blast := by
  have hd : haversineKm 0 0 0 0 = 0 := haversine_self 0 0
  have hsig : sigmoidFalloff 0 (max 1 (0.45 * 0)) 0 = 1 := by
    simp only [sigmoidFalloff]
    rw [if_pos (by norm_num : (0:ℝ) ≤ max 1 (0.45 * 0)),
      if_pos (by norm_num : (0:ℝ) ≤ max 1 (0.45 * 0))]
  refine ⟨by rw [hd], by rw [hd], by rw [hd], ?_, ?_⟩ <;>
  · simp only [assessLethality, hd, hsig]
    norm_num [clamp01, seismicAngleModifier, tsunamiCoastalModifier,
      tsunamiElevationModifier, toFixed2Num, jsRound]

/-- C5 amended: if the great-circle distance from impact to target is at
least each outer radius AND strictly greater than each inner radius
max(1, 0.45 R) -- which is automatic whenever every radius exceeds 20/9 km
-- then the kill probability is 0 and the dominant hazard is none. -/
theorem C5_far_target (inputs : HazardInputs) (targetLat targetLon : ℝ)
    (hb : inputs.blastKm ≤ haversineKm inputs.impactLat inputs.impactLon targetLat targetLon)
    (hs : inputs.seismicKm ≤ haversineKm inputs.impactLat inputs.impactLon targetLat targetLon)
    (ht : inputs.tsunamiKm ≤ haversineKm inputs.impactLat inputs.impactLon targetLat targetLon)
    (hb2 : max 1 (0.45 * inputs.blastKm)
      < haversineKm inputs.impactLat inputs.impactLon targetLat targetLon)
    (hs2 : max 1 (0.45 * inputs.seismicKm)
      < haversineKm inputs.impactLat inputs.impactLon targetLat targetLon)
    (ht2 : max 1 (0.45 * inputs.tsunamiKm)
      < haversineKm inputs.impactLat inputs.impactLon targetLat targetLon) :
    (assessLethality inputs targetLat targetLon).killProbability = 0 ∧
    (assessLethality inputs targetLat targetLon).dominantHazard = .none := by
  have h1 := sigmoidFalloff_eq_zero hb hb2
  have h2 := sigmoidFalloff_eq_zero hs hs2
  have h3 := sigmoidFalloff_eq_zero ht ht2
  constructor <;>
  · simp only [assessLethality, h1, h2, h3]
    norm_num [clamp01, toFixed2Num, jsRound]

/-- Witness for C5 amended: impact at (0,0), target at (0,180), all radii
10 km; the distance 6371 pi exceeds every bound. -/
theorem C5_far_target_witness :
    ((⟨0, 0, 10, 10, 10, Option.none, Option.none, Option.none⟩ : HazardInputs).blastKm
        ≤ haversineKm 0 0 0 180 ∧
      max 1 (0.45 * (⟨0, 0, 10, 10, 10, Option.none, Option.none, Option.none⟩ :
        HazardInputs).blastKm) < haversineKm 0 0 0 180) ∧
    ((assessLethality ⟨0, 0, 10, 10, 10, Option.none, Option.none, Option.none⟩ 0 180).killProbability = 0 ∧
      (assessLethality ⟨0, 0, 10, 10, 10, Option.none, Option.none, Option.none⟩ 0 180).dominantHazard = .none) := by
  have hav : haversineKm 0 0 0 180 = 6371 * Real.pi := haversine_antipodal
  have hpi := Real.pi_gt_three
  have hge : (10:ℝ) ≤ haversineKm 0 0 0 180 := by rw [hav]; nlinarith
  have hlt : max 1 (0.45 * (10:ℝ)) < haversineKm 0 0 0 180 := by
    rw [hav]
    have : max (1:ℝ) (0.45 * 10) = 4.5 := by norm_num
    rw [this]; nlinarith
  exact ⟨⟨hge, hlt⟩,
    C5_far_target ⟨0, 0, 10, 10, 10, Option.none, Option.none, Option.none⟩ 0 180
      hge hge hge hlt hlt hlt⟩


/-- C4: for every tsunami assessment whose looked-up elevation is a known
negative value (terrain Ocean/Sea) and energy E at least 0, the deep-water
wave is 0.6 times the cube root of E times the square root of
clamp(abs elevation, 200, 6000) / 4000, the coastal wave is the deep wave
times (4000/50) to the 0.25, clamped to 1..120 m, and the risk tier is
EXTREME above 50, HIGH above 15, MODERATE above 5, LOW above 1, else
NEGLIGIBLE. -/
theorem C4_ocean_tsunami (e E c : ℝ) (he : e < 0) (hE : 0 ≤ E) :
    (assessTsunamiWith (some e) E c).waveDeepM
      = some (0.6 * E ^ ((1:ℝ)/3) * Real.sqrt (clamp |e| 200 6000 / 4000)) ∧
    (assessTsunamiWith (some e) E c).waveCoastM
      = some (clamp (0.6 * E ^ ((1:ℝ)/3) * Real.sqrt (clamp |e| 200 6000 / 4000)
          * ((4000/50 : ℝ) ^ ((0.25:ℝ)))) 1 120) ∧
    (assessTsunamiWith (some e) E c).risk
      = (if clamp (0.6 * E ^ ((1:ℝ)/3) * Real.sqrt (clamp |e| 200 6000 / 4000)
            * ((4000/50 : ℝ) ^ ((0.25:ℝ)))) 1 120 > 50 then .EXTREME
        else if clamp (0.6 * E ^ ((1:ℝ)/3) * Real.sqrt (clamp |e| 200 6000 / 4000)
            * ((4000/50 : ℝ) ^ ((0.25:ℝ)))) 1 120 > 15 then .HIGH
        else if clamp (0.6 * E ^ ((1:ℝ)/3) * Real.sqrt (clamp |e| 200 6000 / 4000)
            * ((4000/50 : ℝ) ^ ((0.25:ℝ)))) 1 120 > 5 then .MODERATE
        else if clamp (0.6 * E ^ ((1:ℝ)/3) * Real.sqrt (clamp |e| 200 6000 / 4000)
            * ((4000/50 : ℝ) ^ ((0.25:ℝ)))) 1 120 > 1 then .LOW
        else .NEGLIGIBLE) := by
  have hterr : classifyTerrain (some e) = .oceanSea := by
    simp [classifyTerrain, he]
  have hmax : max E 0 = E := max_eq_left hE
  have hcbrt : jsCbrt (max E 0) = E ^ ((1:ℝ)/3) := by
    rw [hmax, jsCbrt_of_nonneg hE]
  simp only [assessTsunamiWith, hterr, hcbrt, reduceIte, riskFromCoast]
  refine ⟨?_, ?_, ?_⟩ <;> first | rfl | trivial

/-- Witness for C4 at elevation -3000, energy 8, crater 2. -/
theorem C4_ocean_tsunami_witness :
    (-3000 : ℝ) < 0 ∧ (0:ℝ) ≤ 8 ∧
    ((assessTsunamiWith (some (-3000)) 8 2).waveDeepM
      = some (0.6 * (8:ℝ) ^ ((1:ℝ)/3) * Real.sqrt (clamp |(-3000:ℝ)| 200 6000 / 4000)) ∧
    (assessTsunamiWith (some (-3000)) 8 2).waveCoastM
      = some (clamp (0.6 * (8:ℝ) ^ ((1:ℝ)/3) * Real.sqrt (clamp |(-3000:ℝ)| 200 6000 / 4000)
          * ((4000/50 : ℝ) ^ ((0.25:ℝ)))) 1 120) ∧
    (assessTsunamiWith (some (-3000)) 8 2).risk
      = (if clamp (0.6 * (8:ℝ) ^ ((1:ℝ)/3) * Real.sqrt (clamp |(-3000:ℝ)| 200 6000 / 4000)
            * ((4000/50 : ℝ) ^ ((0.25:ℝ)))) 1 120 > 50 then .EXTREME
        else if clamp (0.6 * (8:ℝ) ^ ((1:ℝ)/3) * Real.sqrt (clamp |(-3000:ℝ)| 200 6000 / 4000)
            * ((4000/50 : ℝ) ^ ((0.25:ℝ)))) 1 120 > 15 then .HIGH
        else if clamp (0.6 * (8:ℝ) ^ ((1:ℝ)/3) * Real.sqrt (clamp |(-3000:ℝ)| 200 6000 / 4000)
            * ((4000/50 : ℝ) ^ ((0.25:ℝ)))) 1 120 > 5 then .MODERATE
        else if clamp (0.6 * (8:ℝ) ^ ((1:ℝ)/3) * Real.sqrt (clamp |(-3000:ℝ)| 200 6000 / 4000)
            * ((4000/50 : ℝ) ^ ((0.25:ℝ)))) 1 120 > 1 then .LOW
        else .NEGLIGIBLE)) :=
  ⟨by norm_num, by norm_num, C4_ocean_tsunami (-3000) 8 2 (by norm_num) (by norm_num)⟩

/-- C8: when the elevation lookup fails (elevation null) the assessment has
terrain Unknown, risk Unable to determine and both wave heights null, and
the embedded function is total, so no error surfaces to the caller. -/
theorem C8_elevation_failure (E c : ℝ) :
    (assessTsunamiWith none E c).terrain = .unknown ∧
    (assessTsunamiWith none E c).risk = .unable ∧
    (assessTsunamiWith none E c).waveDeepM = none ∧
    (assessTsunamiWith none E c).waveCoastM = none :=
  ⟨rfl, rfl, rfl, rfl⟩


/-- C6: the density assessment selects, among the fetched place tags in
the class set city, suburb, neighbourhood, town, village, hamlet, the
densest class by the table city=5000, suburb=2500, neighbourhood=3000,
town=1500, village=400, hamlet=80 (strictly-greater comparison, first seen
retained on equality), reporting that density with source overpass; with
no matching tag, or on a failed query, it returns the terrain-indexed
density (Ocean/Sea=0, Coastal/Low-lying=800, Plains/Valley=150,
Hills/Plateau=90, Mountains=40, Unknown=150) with source terrain-fallback,
a non-empty note, and category coast for Coastal/Low-lying else rural. -/
theorem C6_density_assessment (els : List (Option String)) (terrain : TerrainKind) :
    ((∃ s, some s ∈ els ∧ (placeDensity s).isSome) →
      (assessPopulationDensityWith els terrain).source = .overpass ∧
      some (assessPopulationDensityWith els terrain).category ∈ els ∧
      (placeDensity (assessPopulationDensityWith els terrain).category).isSome ∧
      (assessPopulationDensityWith els terrain).densityPkm2
        = (placeDensity (assessPopulationDensityWith els terrain).category).getD 0 ∧
      (∀ s, some s ∈ els → (placeDensity s).isSome →
        (placeDensity s).getD 0 ≤ (assessPopulationDensityWith els terrain).densityPkm2)) ∧
    ((¬ ∃ s, some s ∈ els ∧ (placeDensity s).isSome) →
      (assessPopulationDensityWith els terrain).densityPkm2 = terrainDensity terrain ∧
      (assessPopulationDensityWith els terrain).source = .terrainFallback ∧
      (∃ n, (assessPopulationDensityWith els terrain).note = some n ∧ n ≠ "") ∧
      (assessPopulationDensityWith els terrain).category
        = (if terrain = .coastalLowLying then "coast" else "rural")) ∧
    ((assessPopulationDensityFail terrain).densityPkm2 = terrainDensity terrain ∧
      (assessPopulationDensityFail terrain).source = .terrainFallback ∧
      (∃ n, (assessPopulationDensityFail terrain).note = some n ∧ n ≠ "") ∧
      (assessPopulationDensityFail terrain).category
        = (if terrain = .coastalLowLying then "coast" else "rural")) ∧
    (placeDensity "city" = some 5000 ∧ placeDensity "suburb" = some 2500 ∧
      placeDensity "neighbourhood" = some 3000 ∧ placeDensity "town" = some 1500 ∧
      placeDensity "village" = some 400 ∧ placeDensity "hamlet" = some 80) ∧
    (terrainDensity .oceanSea = 0 ∧ terrainDensity .coastalLowLying = 800 ∧
      terrainDensity .plainsValley = 150 ∧ terrainDensity .hillsPlateau = 90 ∧
      terrainDensity .mountains = 40 ∧ terrainDensity .unknown = 150) := by
  refine ⟨?_, ?_, ?_, ?_, ?_⟩
  · intro hex
    rcases hfold : bestPlaceCat els with _ | c
    · exfalso
      obtain ⟨s, hmem, hgood⟩ := hex
      obtain ⟨-, hall⟩ := (foldl_bestPlaceStep_eq_none els none).mp hfold
      exact hall s hmem hgood
    · have hsome := foldl_bestPlaceStep_some els none (by intro b hb; cases hb) c hfold
      have hge := foldl_bestPlaceStep_ge els none c hfold
      have hres : assessPopulationDensityWith els terrain
          = { densityPkm2 := (placeDensity c).getD 0, category := c,
              source := .overpass, note := none } := by
        unfold assessPopulationDensityWith
        rw [hfold]
      rw [hres]
      refine ⟨rfl, ?_, ?_, rfl, ?_⟩
      · rcases hsome.2 with h | h
        · cases h
        · exact h
      · exact hsome.1
      · intro s hmem hgood
        exact hge.2 s hmem hgood
  · intro hnone
    have hfold : bestPlaceCat els = none := by
      refine (foldl_bestPlaceStep_eq_none els none).mpr ⟨rfl, ?_⟩
      intro s hmem hgood
      exact hnone ⟨s, hmem, hgood⟩
    have hres : assessPopulationDensityWith els terrain
        = terrainFallbackAssessment terrain "No OSM place nearby" := by
      unfold assessPopulationDensityWith
      rw [hfold]
    rw [hres]
    exact ⟨rfl, rfl, ⟨"No OSM place nearby", rfl, by decide⟩, rfl⟩
  · exact ⟨rfl, rfl, ⟨"Overpass unavailable", rfl, by decide⟩, rfl⟩
  · refine ⟨?_, ?_, ?_, ?_, ?_, ?_⟩ <;> simp [placeDensity]
  · exact ⟨rfl, rfl, rfl, rfl, rfl, rfl⟩

/-- Witness for C6 on a response carrying a village, an untagged element,
a city and an unrecognised tag, over Plains terrain. -/
theorem C6_density_assessment_witness :
    (∃ s, some s ∈ [some "village", Option.none, some "city", some "fort"] ∧
      (placeDensity s).isSome) ∧
    (assessPopulationDensityWith [some "village", Option.none, some "city", some "fort"]
      .plainsValley).category = "city" ∧
    (assessPopulationDensityWith [some "village", Option.none, some "city", some "fort"]
      .plainsValley).densityPkm2 = 5000 ∧
    ((∃ s, some s ∈ [some "village", Option.none, some "city", some "fort"] ∧
        (placeDensity s).isSome) →
      (assessPopulationDensityWith [some "village", Option.none, some "city", some "fort"]
          .plainsValley).source = .overpass ∧
      some (assessPopulationDensityWith [some "village", Option.none, some "city", some "fort"]
          .plainsValley).category
        ∈ [some "village", Option.none, some "city", some "fort"] ∧
      (placeDensity (assessPopulationDensityWith
          [some "village", Option.none, some "city", some "fort"] .plainsValley).category).isSome ∧
      (assessPopulationDensityWith [some "village", Option.none, some "city", some "fort"]
          .plainsValley).densityPkm2
        = (placeDensity (assessPopulationDensityWith
            [some "village", Option.none, some "city", some "fort"] .plainsValley).category).getD 0 ∧
      (∀ s, some s ∈ [some "village", Option.none, some "city", some "fort"] →
        (placeDensity s).isSome →
        (placeDensity s).getD 0 ≤ (assessPopulationDensityWith
          [some "village", Option.none, some "city", some "fort"] .plainsValley).densityPkm2)) := by
  have hvillage : placeDensity "village" = some 400 := rfl
  have hcity : placeDensity "city" = some 5000 := rfl
  have hfort : placeDensity "fort" = none := rfl
  have s1 : bestPlaceStep Option.none (some "village") = some "village" := by
    rw [bestPlaceStep_none_acc, hvillage]; simp
  have s2 : bestPlaceStep (some "village") Option.none = some "village" :=
    bestPlaceStep_none_tag _
  have s3 : bestPlaceStep (some "village") (some "city") = some "city" := by
    rw [bestPlaceStep_some_acc, hvillage, hcity]; norm_num
  have s4 : bestPlaceStep (some "city") (some "fort") = some "city" := by
    rw [bestPlaceStep_some_acc, hfort]; simp
  have hfold : bestPlaceCat [some "village", Option.none, some "city", some "fort"]
      = some "city" := by
    unfold bestPlaceCat
    rw [List.foldl_cons, s1, List.foldl_cons, s2, List.foldl_cons, s3,
      List.foldl_cons, s4, List.foldl_nil]
  have hres : assessPopulationDensityWith
      [some "village", Option.none, some "city", some "fort"] .plainsValley
      = { densityPkm2 := (placeDensity "city").getD 0, category := "city",
          source := .overpass, note := Option.none } := by
    unfold assessPopulationDensityWith
    rw [hfold]
  have hcat : (assessPopulationDensityWith
      [some "village", Option.none, some "city", some "fort"] .plainsValley).category
      = "city" := by
    rw [hres]
  have hden : (assessPopulationDensityWith
      [some "village", Option.none, some "city", some "fort"] .plainsValley).densityPkm2
      = 5000 := by
    rw [hres, hcity]
    rfl
  exact ⟨⟨"city", by simp, by simp [placeDensity]⟩, hcat, hden,
    (C6_density_assessment [some "village", Option.none, some "city", some "fort"]
      .plainsValley).1⟩


/-- C7: the returned casualties equal the nice-number rounding of
density times area times fatality rate: zero on a non-positive product,
and otherwise the nearest of 1, 2, 5, 10 times 10 to the floor of the
base-10 logarithm, with thresholds 1.5, 3.5, 7.5 on the mantissa; in
particular a zero density always gives zero casualties. -/
theorem C7_casualties_rounding (E c b d : ℝ) (r : TsunamiRisk) :
    ((estimateCasualties E c b d r).casualties
      = roundSig (d * (estimateCasualties E c b d r).areaKm2
          * (estimateCasualties E c b d r).fatalityRate)) ∧
    (∀ n, n = d * (estimateCasualties E c b d r).areaKm2
        * (estimateCasualties E c b d r).fatalityRate → 0 < n →
      (1 ≤ n / (10:ℝ) ^ (⌊Real.logb 10 n⌋) ∧ n / (10:ℝ) ^ (⌊Real.logb 10 n⌋) < 10) ∧
      (estimateCasualties E c b d r).casualties
        = niceSig (n / (10:ℝ) ^ (⌊Real.logb 10 n⌋)) * (10:ℝ) ^ (⌊Real.logb 10 n⌋) ∧
      (∀ s ∈ ({1, 2, 5, 10} : Set ℝ),
        |n / (10:ℝ) ^ (⌊Real.logb 10 n⌋) - niceSig (n / (10:ℝ) ^ (⌊Real.logb 10 n⌋))|
          ≤ |n / (10:ℝ) ^ (⌊Real.logb 10 n⌋) - s|)) ∧
    (d = 0 → (estimateCasualties E c b d r).casualties = 0) := by
  have h1 : (estimateCasualties E c b d r).casualties
      = roundSig (d * (estimateCasualties E c b d r).areaKm2
          * (estimateCasualties E c b d r).fatalityRate) := rfl
  refine ⟨h1, ?_, ?_⟩
  · intro n hn hpos
    obtain ⟨hm1, hm2⟩ := mantissa_bounds hpos
    refine ⟨⟨hm1, hm2⟩, ?_, niceSig_nearest hm1 hm2⟩
    rw [h1, ← hn]
    exact roundSig_pos hpos
  · intro hd
    rw [h1, hd, zero_mul, zero_mul]
    exact roundSig_nonpos (le_refl 0)

/-- Witness for C7 at energy 100 Mt, crater 2 km, blast 10 km, density 100,
risk NEGLIGIBLE; the raw product is positive there. -/
theorem C7_casualties_rounding_witness :
    (0 < 100 * (estimateCasualties 100 2 10 100 .NEGLIGIBLE).areaKm2
        * (estimateCasualties 100 2 10 100 .NEGLIGIBLE).fatalityRate) ∧
    (((estimateCasualties 100 2 10 100 .NEGLIGIBLE).casualties
      = roundSig (100 * (estimateCasualties 100 2 10 100 .NEGLIGIBLE).areaKm2
          * (estimateCasualties 100 2 10 100 .NEGLIGIBLE).fatalityRate)) ∧
    (∀ n, n = 100 * (estimateCasualties 100 2 10 100 .NEGLIGIBLE).areaKm2
        * (estimateCasualties 100 2 10 100 .NEGLIGIBLE).fatalityRate → 0 < n →
      (1 ≤ n / (10:ℝ) ^ (⌊Real.logb 10 n⌋) ∧ n / (10:ℝ) ^ (⌊Real.logb 10 n⌋) < 10) ∧
      (estimateCasualties 100 2 10 100 .NEGLIGIBLE).casualties
        = niceSig (n / (10:ℝ) ^ (⌊Real.logb 10 n⌋)) * (10:ℝ) ^ (⌊Real.logb 10 n⌋) ∧
      (∀ s ∈ ({1, 2, 5, 10} : Set ℝ),
        |n / (10:ℝ) ^ (⌊Real.logb 10 n⌋) - niceSig (n / (10:ℝ) ^ (⌊Real.logb 10 n⌋))|
          ≤ |n / (10:ℝ) ^ (⌊Real.logb 10 n⌋) - s|)) ∧
    ((100:ℝ) = 0 → (estimateCasualties 100 2 10 100 .NEGLIGIBLE).casualties = 0)) := by
  have harea : (estimateCasualties 100 2 10 100 .NEGLIGIBLE).areaKm2
      = Real.pi * max 0.1 (max 0 ((2:ℝ) / 2) + 0.6 * max 0 10)
        * max 0.1 (max 0 ((2:ℝ) / 2) + 0.6 * max 0 10) := rfl
  have hrate : (estimateCasualties 100 2 10 100 .NEGLIGIBLE).fatalityRate
      = clamp (clamp (0.08 + 0.12 * Real.logb 10 (max 1e-6 100)) 0.03 0.75 + 0) 0.03 0.9 := rfl
  have hpos : 0 < 100 * (estimateCasualties 100 2 10 100 .NEGLIGIBLE).areaKm2
      * (estimateCasualties 100 2 10 100 .NEGLIGIBLE).fatalityRate := by
    have ha : 0 < (estimateCasualties 100 2 10 100 .NEGLIGIBLE).areaKm2 := by
      rw [harea]
      have hre : (0:ℝ) < max 0.1 (max 0 ((2:ℝ) / 2) + 0.6 * max 0 10) :=
        lt_of_lt_of_le (by norm_num) (le_max_left _ _)
      have hpi := Real.pi_pos
      positivity
    have hr : 0 < (estimateCasualties 100 2 10 100 .NEGLIGIBLE).fatalityRate := by
      rw [hrate]
      unfold clamp
      refine lt_of_lt_of_le (by norm_num : (0:ℝ) < 0.03) (le_max_left _ _)
    positivity
  exact ⟨hpos, C7_casualties_rounding 100 2 10 100 .NEGLIGIBLE⟩


/-- C10: for every input to estimateCasualties, including NaN, infinite or
negative energy, crater, blast radius or density, the function is total
and the casualties field is a non-negative finite number: exactly 0 when
the raw product density times area times rate is non-finite or
non-positive, and otherwise of the form m times 10 to the e with m in 1,
2, 5, 10 -- even when the returned areaKm2 or fatalityRate are NaN.
(Finite arithmetic is modelled exactly; 64-bit overflow is not.) -/
theorem C10_casualties_safety (E c b d : JSNum) (r : TsunamiRisk) :
    ∃ x : ℝ,
      (estimateCasualtiesJS E c b d r).casualties = .fin x ∧ 0 ≤ x ∧
      ((¬ ∃ y : ℝ, JSNum.mul (JSNum.mul d (estimateCasualtiesJS E c b d r).areaKm2)
          (estimateCasualtiesJS E c b d r).fatalityRate = .fin y ∧ 0 < y) → x = 0) ∧
      (∀ y : ℝ, JSNum.mul (JSNum.mul d (estimateCasualtiesJS E c b d r).areaKm2)
          (estimateCasualtiesJS E c b d r).fatalityRate = .fin y → 0 < y →
        ∃ (m : ℝ) (e : ℤ), (m = 1 ∨ m = 2 ∨ m = 5 ∨ m = 10) ∧ x = m * (10:ℝ) ^ e) := by
  have hcas : (estimateCasualtiesJS E c b d r).casualties
      = roundSigJS (JSNum.mul (JSNum.mul d (estimateCasualtiesJS E c b d r).areaKm2)
          (estimateCasualtiesJS E c b d r).fatalityRate) := rfl
  rcases hraw : JSNum.mul (JSNum.mul d (estimateCasualtiesJS E c b d r).areaKm2)
      (estimateCasualtiesJS E c b d r).fatalityRate with _ | _ | _ | y
  · exact ⟨0, by rw [hcas, hraw]; rfl, le_refl 0, fun _ => rfl,
      fun y hy => by simp at hy⟩
  · exact ⟨0, by rw [hcas, hraw]; rfl, le_refl 0, fun _ => rfl,
      fun y hy => by simp at hy⟩
  · exact ⟨0, by rw [hcas, hraw]; rfl, le_refl 0, fun _ => rfl,
      fun y hy => by simp at hy⟩
  · by_cases hy : y ≤ 0
    · refine ⟨0, ?_, le_refl 0, fun _ => rfl, ?_⟩
      · rw [hcas, hraw]
        simp only [roundSigJS, if_pos hy]
      · intro y2 hy2 hpos
        injection hy2 with hy2
        rw [← hy2] at hpos
        linarith
    · push_neg at hy
      set m := y / (10:ℝ) ^ (⌊Real.logb 10 y⌋ : ℤ) with hm
      set sig : ℝ := if m < 1.5 then 1 else if m < 3.5 then 2 else if m < 7.5 then 5 else 10
        with hsig
      have hval : (estimateCasualtiesJS E c b d r).casualties
          = .fin (sig * (10:ℝ) ^ (⌊Real.logb 10 y⌋ : ℤ)) := by
        rw [hcas, hraw]
        simp only [roundSigJS, if_neg (not_le.mpr hy)]
      have hsigpos : 0 < sig := by
        rw [hsig]
        by_cases h1 : m < 1.5
        · rw [if_pos h1]; norm_num
        · rw [if_neg h1]
          by_cases h2 : m < 3.5
          · rw [if_pos h2]; norm_num
          · rw [if_neg h2]
            by_cases h3 : m < 7.5
            · rw [if_pos h3]; norm_num
            · rw [if_neg h3]; norm_num
      refine ⟨sig * (10:ℝ) ^ (⌊Real.logb 10 y⌋ : ℤ), hval, ?_, ?_, ?_⟩
      · have : (0:ℝ) < (10:ℝ) ^ (⌊Real.logb 10 y⌋ : ℤ) := zpow_pos (by norm_num) _
        positivity
      · intro hno
        exact absurd ⟨y, rfl, hy⟩ hno
      · intro y2 hy2 hpos
        refine ⟨sig, ⌊Real.logb 10 y⌋, ?_, rfl⟩
        rw [hsig]
        by_cases h1 : m < 1.5
        · rw [if_pos h1]; left; rfl
        · rw [if_neg h1]
          by_cases h2 : m < 3.5
          · rw [if_pos h2]; right; left; rfl
          · rw [if_neg h2]
            by_cases h3 : m < 7.5
            · rw [if_pos h3]; right; right; left; rfl
            · rw [if_neg h3]; right; right; right; rfl

/-- Witness for C10 at a NaN energy and NaN crater: the returned area and
fatality rate are both NaN, the raw product is NaN, and the casualties
come out exactly 0. -/
theorem C10_casualties_safety_witness :
    (estimateCasualtiesJS .nan .nan (.fin 10) (.fin 100) .NEGLIGIBLE).fatalityRate = .nan ∧
    (estimateCasualtiesJS .nan .nan (.fin 10) (.fin 100) .NEGLIGIBLE).areaKm2 = .nan ∧
    (estimateCasualtiesJS .nan .nan (.fin 10) (.fin 100) .NEGLIGIBLE).casualties = .fin 0 ∧
    (∃ x : ℝ,
      (estimateCasualtiesJS .nan .nan (.fin 10) (.fin 100) .NEGLIGIBLE).casualties
        = .fin x ∧ 0 ≤ x ∧
      ((¬ ∃ y : ℝ, JSNum.mul (JSNum.mul (.fin 100)
          (estimateCasualtiesJS .nan .nan (.fin 10) (.fin 100) .NEGLIGIBLE).areaKm2)
          (estimateCasualtiesJS .nan .nan (.fin 10) (.fin 100) .NEGLIGIBLE).fatalityRate
            = .fin y ∧ 0 < y) → x = 0) ∧
      (∀ y : ℝ, JSNum.mul (JSNum.mul (.fin 100)
          (estimateCasualtiesJS .nan .nan (.fin 10) (.fin 100) .NEGLIGIBLE).areaKm2)
          (estimateCasualtiesJS .nan .nan (.fin 10) (.fin 100) .NEGLIGIBLE).fatalityRate
            = .fin y → 0 < y →
        ∃ (m : ℝ) (e : ℤ), (m = 1 ∨ m = 2 ∨ m = 5 ∨ m = 10) ∧ x = m * (10:ℝ) ^ e)) :=
  ⟨rfl, rfl, rfl, C10_casualties_safety .nan .nan (.fin 10) (.fin 100) .NEGLIGIBLE⟩


/-- C2 counterexample: an assessment reachable from the tsunami model
(elevation 300 m, hence Hills/Plateau terrain, zero coastal wave and a
determinate NEGLIGIBLE risk) makes buildTsunamiQuestion return five
choices, not four. -/
theorem C2_counterexample :
    (buildTsunamiQuestion (assessTsunamiWith (some 300) 8 1) [0, 1, 2, 3]).choices.length
      = 5 := by
  have hterr : classifyTerrain (some 300) = .hillsPlateau := by
    rw [classifyTerrain]
    norm_num
  have hrisk : riskFromCoast (some 0) = .NEGLIGIBLE := by
    rw [riskFromCoast]
    norm_num
  have ha : assessTsunamiWith (some 300) 8 1
      = { elevation := some 300, terrain := .hillsPlateau, risk := .NEGLIGIBLE,
          waveDeepM := some 0, waveCoastM := some 0, notes := [] } := by
    simp only [assessTsunamiWith, hterr]
    rw [if_neg (show TerrainKind.hillsPlateau ≠ TerrainKind.oceanSea from by decide),
      if_neg (show TerrainKind.hillsPlateau ≠ TerrainKind.coastalLowLying from by decide),
      hrisk]
  rw [ha]
  simp only [buildTsunamiQuestion, buildTsunamiRiskOnly,
    if_pos (show (0:ℝ) < 1 from by norm_num)]
  rw [if_neg (show TsunamiRisk.NEGLIGIBLE ≠ TsunamiRisk.unable from by decide)]
  rfl

/-- C2 (amended): every quiz builder yields a structurally well-formed
question — four pairwise-distinct choices, four index-aligned
explanations, and an answer index in 0..3 — for every input and every
shuffle, EXCEPT the tsunami builder in its risk-only branch (taken when
the coastal wave estimate is absent or below one metre): there, with a
determinate risk label, it returns the five risk levels as choices (still
pairwise distinct, with five aligned explanations and an answer in 0..4),
and it meets the four-choice shape exactly when the risk is unable to be
determined. -/
theorem C2_quiz_structure (energyTNT casualties areaKm2 fatalityRate : ℝ)
    (density : DensityAssessment) (a : TsunamiAssessment)
    (order : List ℕ) (fill : List ℝ) (hord : order.Perm [0, 1, 2, 3]) :
    QOk (buildThermalQuestion energyTNT order)
      ∧ QOk (buildSeismicQuestion energyTNT order fill)
      ∧ QOk (buildEnergyClassQuestion energyTNT)
      ∧ QOk (buildCasualtyQuestion casualties areaKm2 fatalityRate density order)
      ∧ ((a.waveCoastM = none ∨ ∃ w, a.waveCoastM = some w ∧ w < 1) →
          (a.risk = .unable → QOk (buildTsunamiQuestion a order))
            ∧ (a.risk ≠ .unable → QOk5 (buildTsunamiQuestion a order)))
      ∧ (∀ w, a.waveCoastM = some w → 1 ≤ w → QOk (buildTsunamiQuestion a order)) := by
  refine ⟨thermal_QOk energyTNT order hord, seismic_QOk energyTNT order fill hord,
    energyClass_QOk energyTNT, casualty_QOk casualties areaKm2 fatalityRate density order hord,
    ?_, fun w hw h1 => tsunami_height_QOk a w hw h1 order hord⟩
  intro hlow
  have hro : buildTsunamiQuestion a order = buildTsunamiRiskOnly a := by
    rcases hlow with hnone | ⟨w, hw, hlt⟩
    · simp only [buildTsunamiQuestion, hnone]
    · simp only [buildTsunamiQuestion, hw, if_pos hlt]
  rw [hro]
  exact ⟨fun hr => tsunamiRiskOnly_unable_QOk a hr, fun hr => tsunamiRiskOnly_det_QOk5 a hr⟩

/-- Witness for C2 at energy 2 Mt, 5 casualties, shuffle [2,0,3,1], no
padding draws, and the Hills/Plateau assessment of the counterexample. -/
theorem C2_quiz_structure_witness :
    ([2, 0, 3, 1] : List ℕ).Perm [0, 1, 2, 3]
      ∧ QOk (buildThermalQuestion 2 [2, 0, 3, 1])
      ∧ QOk (buildSeismicQuestion 2 [2, 0, 3, 1] [])
      ∧ QOk (buildEnergyClassQuestion 2)
      ∧ QOk (buildCasualtyQuestion 5 1 0.3 ⟨150, "unknown", .overpass, Option.none⟩
          [2, 0, 3, 1])
      ∧ QOk5 (buildTsunamiQuestion
          ⟨some 300, .hillsPlateau, .NEGLIGIBLE, some 0, some 0, []⟩ [2, 0, 3, 1]) := by
  have h := C2_quiz_structure 2 5 1 0.3 ⟨150, "unknown", .overpass, Option.none⟩
    ⟨some 300, .hillsPlateau, .NEGLIGIBLE, some 0, some 0, []⟩ [2, 0, 3, 1] [] (by decide)
  exact ⟨by decide, h.1, h.2.1, h.2.2.1, h.2.2.2.1,
    (h.2.2.2.2.1 (Or.inr ⟨0, rfl, by norm_num⟩)).2 (by decide)⟩

end MeteorMadness
